import Mathlib

/-!
Shallow embedding of the merkushev-dp-validator repository
(`validate_swe_bench.py`, `swe_bench_validator/data_loader.py`,
`swe_bench_validator/formatter.py`) together with proofs of the frozen
claims about it.

Python values flowing through the pipeline (JSON records, report
artifacts, field values) are modelled by the inductive `PyVal`.
Python exceptions are modelled by `Except String`; a `.error e` value
is an exception carrying text `e` that propagates until a `try/except`
boundary in the source catches it.  File systems and the docker
subprocess are modelled as explicit oracles passed to the functions
that consult them.  `json.loads`/`json.dumps` of the Python standard
library are modelled by an executable JSON parser and serializer over
`PyVal` (serializer follows the `ensure_ascii=True` default and the
default `(', ', ': ')` separators; floating point literals are carried
as uninterpreted lexemes, which no claim exercises).
-/

/-- Model of a Python/JSON value as it occurs in this repository's data flow. -/
inductive PyVal where
  | vStr (s : String)
  | vInt (n : Int)
  | vNum (lexeme : String)
  | vBool (b : Bool)
  | vNone
  | vList (xs : List PyVal)
  | vDict (kvs : List (String × PyVal))

open PyVal

mutual

/-- Decidable equality on Python values (nested inductive, hence spelled out). -/
def PyVal.decEq : (a b : PyVal) → Decidable (a = b)
  | vStr a, vStr b =>
      match String.decEq a b with
      | isTrue h => isTrue (by rw [h])
      | isFalse h => isFalse (fun hh => h (by injection hh))
  | vInt a, vInt b =>
      match Int.decEq a b with
      | isTrue h => isTrue (by rw [h])
      | isFalse h => isFalse (fun hh => h (by injection hh))
  | vNum a, vNum b =>
      match String.decEq a b with
      | isTrue h => isTrue (by rw [h])
      | isFalse h => isFalse (fun hh => h (by injection hh))
  | vBool a, vBool b =>
      match Bool.decEq a b with
      | isTrue h => isTrue (by rw [h])
      | isFalse h => isFalse (fun hh => h (by injection hh))
  | vNone, vNone => isTrue rfl
  | vList a, vList b =>
      match PyVal.decEqList a b with
      | isTrue h => isTrue (by rw [h])
      | isFalse h => isFalse (fun hh => h (by injection hh))
  | vDict a, vDict b =>
      match PyVal.decEqKVs a b with
      | isTrue h => isTrue (by rw [h])
      | isFalse h => isFalse (fun hh => h (by injection hh))
  | vStr _, vInt _ => isFalse (fun h => PyVal.noConfusion h)
  | vStr _, vNum _ => isFalse (fun h => PyVal.noConfusion h)
  | vStr _, vBool _ => isFalse (fun h => PyVal.noConfusion h)
  | vStr _, vNone => isFalse (fun h => PyVal.noConfusion h)
  | vStr _, vList _ => isFalse (fun h => PyVal.noConfusion h)
  | vStr _, vDict _ => isFalse (fun h => PyVal.noConfusion h)
  | vInt _, vStr _ => isFalse (fun h => PyVal.noConfusion h)
  | vInt _, vNum _ => isFalse (fun h => PyVal.noConfusion h)
  | vInt _, vBool _ => isFalse (fun h => PyVal.noConfusion h)
  | vInt _, vNone => isFalse (fun h => PyVal.noConfusion h)
  | vInt _, vList _ => isFalse (fun h => PyVal.noConfusion h)
  | vInt _, vDict _ => isFalse (fun h => PyVal.noConfusion h)
  | vNum _, vStr _ => isFalse (fun h => PyVal.noConfusion h)
  | vNum _, vInt _ => isFalse (fun h => PyVal.noConfusion h)
  | vNum _, vBool _ => isFalse (fun h => PyVal.noConfusion h)
  | vNum _, vNone => isFalse (fun h => PyVal.noConfusion h)
  | vNum _, vList _ => isFalse (fun h => PyVal.noConfusion h)
  | vNum _, vDict _ => isFalse (fun h => PyVal.noConfusion h)
  | vBool _, vStr _ => isFalse (fun h => PyVal.noConfusion h)
  | vBool _, vInt _ => isFalse (fun h => PyVal.noConfusion h)
  | vBool _, vNum _ => isFalse (fun h => PyVal.noConfusion h)
  | vBool _, vNone => isFalse (fun h => PyVal.noConfusion h)
  | vBool _, vList _ => isFalse (fun h => PyVal.noConfusion h)
  | vBool _, vDict _ => isFalse (fun h => PyVal.noConfusion h)
  | vNone, vStr _ => isFalse (fun h => PyVal.noConfusion h)
  | vNone, vInt _ => isFalse (fun h => PyVal.noConfusion h)
  | vNone, vNum _ => isFalse (fun h => PyVal.noConfusion h)
  | vNone, vBool _ => isFalse (fun h => PyVal.noConfusion h)
  | vNone, vList _ => isFalse (fun h => PyVal.noConfusion h)
  | vNone, vDict _ => isFalse (fun h => PyVal.noConfusion h)
  | vList _, vStr _ => isFalse (fun h => PyVal.noConfusion h)
  | vList _, vInt _ => isFalse (fun h => PyVal.noConfusion h)
  | vList _, vNum _ => isFalse (fun h => PyVal.noConfusion h)
  | vList _, vBool _ => isFalse (fun h => PyVal.noConfusion h)
  | vList _, vNone => isFalse (fun h => PyVal.noConfusion h)
  | vList _, vDict _ => isFalse (fun h => PyVal.noConfusion h)
  | vDict _, vStr _ => isFalse (fun h => PyVal.noConfusion h)
  | vDict _, vInt _ => isFalse (fun h => PyVal.noConfusion h)
  | vDict _, vNum _ => isFalse (fun h => PyVal.noConfusion h)
  | vDict _, vBool _ => isFalse (fun h => PyVal.noConfusion h)
  | vDict _, vNone => isFalse (fun h => PyVal.noConfusion h)
  | vDict _, vList _ => isFalse (fun h => PyVal.noConfusion h)

/-- Decidable equality on lists of Python values. -/
def PyVal.decEqList : (a b : List PyVal) → Decidable (a = b)
  | [], [] => isTrue rfl
  | [], _ :: _ => isFalse (fun h => List.noConfusion h)
  | _ :: _, [] => isFalse (fun h => List.noConfusion h)
  | x :: xs, y :: ys =>
      match PyVal.decEq x y, PyVal.decEqList xs ys with
      | isTrue h1, isTrue h2 => isTrue (by rw [h1, h2])
      | isFalse h1, _ => isFalse (fun hh => by injection hh; contradiction)
      | _, isFalse h2 => isFalse (fun hh => by injection hh; contradiction)

/-- Decidable equality on string-keyed association lists of Python values. -/
def PyVal.decEqKVs : (a b : List (String × PyVal)) → Decidable (a = b)
  | [], [] => isTrue rfl
  | [], _ :: _ => isFalse (fun h => List.noConfusion h)
  | _ :: _, [] => isFalse (fun h => List.noConfusion h)
  | (k1, v1) :: xs, (k2, v2) :: ys =>
      match String.decEq k1 k2, PyVal.decEq v1 v2, PyVal.decEqKVs xs ys with
      | isTrue h0, isTrue h1, isTrue h2 => isTrue (by rw [h0, h1, h2])
      | isFalse h0, _, _ => isFalse (fun hh => by
          injection hh with hp ht; exact h0 (congrArg Prod.fst hp))
      | _, isFalse h1, _ => isFalse (fun hh => by
          injection hh with hp ht; exact h1 (congrArg Prod.snd hp))
      | _, _, isFalse h2 => isFalse (fun hh => by injection hh; contradiction)

end

instance : DecidableEq PyVal := PyVal.decEq

/-- Decidable equality for `Except` results, used to evaluate the embedded
functions on concrete inputs. -/
instance {ε α : Type} [DecidableEq ε] [DecidableEq α] : DecidableEq (Except ε α) := fun a b =>
  match a, b with
  | .ok x, .ok y =>
      match decEq x y with
      | isTrue h => isTrue (by rw [h])
      | isFalse h => isFalse (fun hh => h (by injection hh))
  | .error x, .error y =>
      match decEq x y with
      | isTrue h => isTrue (by rw [h])
      | isFalse h => isFalse (fun hh => h (by injection hh))
  | .ok _, .error _ => isFalse (fun h => Except.noConfusion h)
  | .error _, .ok _ => isFalse (fun h => Except.noConfusion h)

/-- Python truthiness of a value (`bool(v)`).  The truthiness of a float
lexeme is approximated as "has a nonzero digit"; no claim exercises it. -/
def pyTruthy : PyVal → Bool
  | vStr s => !s.isEmpty
  | vInt n => decide (n ≠ 0)
  | vNum s => s.toList.any (fun c => c.isDigit && c ≠ '0')
  | vBool b => b
  | vNone => false
  | vList xs => !xs.isEmpty
  | vDict kvs => !kvs.isEmpty

/-- Python `v.get(k, d)` on a value: dictionaries look the key up with a
default, every other type raises `AttributeError`. -/
def pyGet (v : PyVal) (k : String) (d : PyVal) : Except String PyVal :=
  match v with
  | vDict kvs => .ok ((kvs.lookup k).getD d)
  | _ => .error ("AttributeError: object has no attribute get: " ++ k)

/-- Python `v[k]` subscription by a string key: dictionaries raise
`KeyError` when the key is absent, every other type raises `TypeError`. -/
def pyIndex (v : PyVal) (k : String) : Except String PyVal :=
  match v with
  | vDict kvs =>
      match kvs.lookup k with
      | some x => .ok x
      | none => .error ("KeyError: " ++ k)
  | _ => .error ("TypeError: value is not subscriptable: " ++ k)

/-- Python `k in v` for a string `k`: key membership for dictionaries,
element membership for lists, substring test for strings, `TypeError`
for non-iterable values. -/
def pyContains (v : PyVal) (k : String) : Except String Bool :=
  match v with
  | vDict kvs => .ok (kvs.any (fun p => p.1 == k))
  | vList xs => .ok (xs.contains (vStr k))
  | vStr s => .ok (decide (List.IsInfix k.toList s.toList))
  | _ => .error "TypeError: argument is not iterable"

/-- Characters Python's `str.strip()` removes by default. -/
def isPyWs (c : Char) : Bool :=
  c = ' ' || c = '\t' || c = '\n' || c = '\r' || c = Char.ofNat 11 || c = Char.ofNat 12

/-- Whitespace stripping from both ends of a string (`str.strip()`). -/
def stripWs (s : String) : String :=
  String.mk (((s.toList.dropWhile isPyWs).reverse.dropWhile isPyWs).reverse)

/-- Python `v.strip()`: only strings have a `strip` attribute; any other
value raises `AttributeError`. -/
def pyStrip (v : PyVal) : Except String String :=
  match v with
  | vStr s => .ok (stripWs s)
  | _ => .error "AttributeError: object has no attribute strip"

/-- Insertion into a Python dictionary: an existing key keeps its position
and gets the new value, a new key is appended (insertion order). -/
def dictInsert : List (String × PyVal) → String → PyVal → List (String × PyVal)
  | [], k, v => [(k, v)]
  | (k0, v0) :: rest, k, v =>
      if k0 = k then (k0, v) :: rest else (k0, v0) :: dictInsert rest k v

/-- Accumulate parsed JSON object members into a Python dictionary,
later duplicates of a key overriding earlier ones. -/
def buildDict (kvs : List (String × PyVal)) : List (String × PyVal) :=
  kvs.foldl (fun acc kv => dictInsert acc kv.1 kv.2) []

/-- Whitespace the JSON grammar allows between tokens. -/
def isJsonWs (c : Char) : Bool :=
  c = ' ' || c = '\t' || c = '\n' || c = '\r'

/-- Drop leading JSON whitespace. -/
def skipWs (l : List Char) : List Char := l.dropWhile isJsonWs

/-- Value of one hexadecimal digit, when the character is one. -/
def hexVal (c : Char) : Option Nat :=
  if '0' ≤ c ∧ c ≤ '9' then some (c.toNat - 48)
  else if 'a' ≤ c ∧ c ≤ 'f' then some (c.toNat - 87)
  else if 'A' ≤ c ∧ c ≤ 'F' then some (c.toNat - 55)
  else none

/-- Resolution of a single-character JSON escape sequence. -/
def simpleUnescape (c : Char) : Option Char :=
  if c = '"' then some '"'
  else if c = '\\' then some '\\'
  else if c = '/' then some '/'
  else if c = 'n' then some '\n'
  else if c = 't' then some '\t'
  else if c = 'r' then some '\r'
  else if c = 'b' then some (Char.ofNat 8)
  else if c = 'f' then some (Char.ofNat 12)
  else none

/-- Read four hexadecimal digits into a code-unit value. -/
def readHex4 : List Char → Option (Nat × List Char)
  | h1 :: h2 :: h3 :: h4 :: rest =>
    match hexVal h1, hexVal h2, hexVal h3, hexVal h4 with
    | some a1, some a2, some a3, some a4 => some (a1 * 4096 + a2 * 256 + a3 * 16 + a4, rest)
    | _, _, _, _ => none
  | _ => none

/-- Decode the continuation of a `\u` escape given a decoded high
surrogate `m`: recombine with a following `\uXXXX` low surrogate when
present, otherwise keep the lone unit. -/
def decodeLowSurrogate (m : Nat) (rest3 : List Char) : Option (Char × List Char) :=
  match rest3 with
  | b1 :: b2 :: rest4 =>
    if b1 = '\\' ∧ b2 = 'u' then
      match readHex4 rest4 with
      | some (m2, rest5) =>
        if 0xDC00 ≤ m2 ∧ m2 < 0xE000 then
          some (Char.ofNat (0x10000 + (m - 0xD800) * 0x400 + (m2 - 0xDC00)), rest5)
        else some (Char.ofNat m, rest3)
      | none => some (Char.ofNat m, rest3)
    else some (Char.ofNat m, rest3)
  | _ => some (Char.ofNat m, rest3)

/-- Decode a `\uXXXX` escape body (the input after the `u`). -/
def decodeU (rest2 : List Char) : Option (Char × List Char) :=
  match readHex4 rest2 with
  | some (m, rest3) =>
    if 0xD800 ≤ m ∧ m < 0xDC00 then decodeLowSurrogate m rest3
    else some (Char.ofNat m, rest3)
  | none => none

/-- Decode one JSON escape sequence given the input following the
backslash; returns the decoded character and the remaining input.
Surrogate pairs written as two `\uXXXX` units are recombined; an
unpaired surrogate (which Lean's `Char` cannot carry) degrades to
`Char.ofNat`'s fallback, a case no output of the serializer produces. -/
def decodeEscape : List Char → Option (Char × List Char)
  | [] => none
  | e :: rest2 =>
    if e = 'u' then decodeU rest2
    else (simpleUnescape e).map (fun c2 => (c2, rest2))

/-- Scan of a JSON string body after the opening quote (fuel-indexed so
that it evaluates by reduction; `parseJString` supplies ample fuel):
returns the decoded characters and the input remaining after the
closing quote. -/
def parseJStringAuxF : Nat → List Char → Option (List Char × List Char)
  | 0, _ => none
  | _ + 1, [] => none
  | fuel + 1, c :: rest =>
    if c = '"' then some ([], rest)
    else if c = '\\' then
      match decodeEscape rest with
      | some (c2, r) => (parseJStringAuxF fuel r).map (fun p => (c2 :: p.1, p.2))
      | none => none
    else if c.toNat < 0x20 then none
    else (parseJStringAuxF fuel rest).map (fun p => (c :: p.1, p.2))

/-- Scan of a JSON string body after the opening quote. -/
def parseJStringAux (l : List Char) : Option (List Char × List Char) :=
  parseJStringAuxF (l.length + 1) l

/-- Numeric value of a list of decimal digit characters. -/
def digitsVal (ds : List Char) : Nat :=
  ds.foldl (fun n c => n * 10 + (c.toNat - 48)) 0

/-- Integer built from an optional sign prefix and decimal digits. -/
def intOfDigits (sgn : List Char) (ds : List Char) : Int :=
  if sgn.isEmpty then (digitsVal ds : Int) else -(digitsVal ds : Int)

/-- Parse the exponent continuation of a JSON number, `pre` being the
lexeme collected so far including the `e`/`E`. -/
def parseExpTail (pre : List Char) (l : List Char) : Option (PyVal × List Char) :=
  let (sgn, l1) : List Char × List Char :=
    match l with
    | c :: rest => if c = '+' ∨ c = '-' then ([c], rest) else ([], l)
    | [] => ([], l)
  let (ds, r) := l1.span Char.isDigit
  if ds.isEmpty then none else some (vNum (String.mk (pre ++ sgn ++ ds)), r)

/-- Parse a JSON number starting at the given input.  Plain integer
lexemes become `vInt` (as Python's `json` returns `int`); lexemes with a
fraction or exponent become `vNum` carrying the lexeme. -/
def parseNumber (l : List Char) : Option (PyVal × List Char) :=
  let (sgn, l1) : List Char × List Char :=
    match l with
    | c :: rest => if c = '-' then (['-'], rest) else ([], l)
    | [] => ([], l)
  let (ds, r1) := l1.span Char.isDigit
  if ds.isEmpty then none
  else if 1 < ds.length ∧ ds.headD '0' = '0' then none
  else
    match r1 with
    | '.' :: r2 =>
      let (fs, r3) := r2.span Char.isDigit
      if fs.isEmpty then none
      else
        match r3 with
        | e :: r4 =>
          if e = 'e' ∨ e = 'E' then parseExpTail (sgn ++ ds ++ '.' :: fs ++ [e]) r4
          else some (vNum (String.mk (sgn ++ ds ++ '.' :: fs)), r3)
        | [] => some (vNum (String.mk (sgn ++ ds ++ '.' :: fs)), [])
    | e :: r2 =>
      if e = 'e' ∨ e = 'E' then parseExpTail (sgn ++ ds ++ [e]) r2
      else some (vInt (intOfDigits sgn ds), r1)
    | [] => some (vInt (intOfDigits sgn ds), [])

mutual

/-- Parse one JSON value (fuel-indexed recursion; `jsonParse` supplies
fuel ample for its input).  Leading whitespace is skipped. -/
def parseValue : Nat → List Char → Option (PyVal × List Char)
  | 0, _ => none
  | fuel + 1, l =>
    match skipWs l with
    | [] => none
    | c :: rest =>
      if c = '"' then (parseJStringAux rest).map (fun p => (vStr (String.mk p.1), p.2))
      else if c = '{' then
        (parseObjectTail fuel (skipWs rest)).map (fun p => (vDict (buildDict p.1), p.2))
      else if c = '[' then
        (parseArrayTail fuel (skipWs rest)).map (fun p => (vList p.1, p.2))
      else if c = 't' then
        match rest with
        | 'r' :: 'u' :: 'e' :: r => some (vBool true, r)
        | _ => none
      else if c = 'f' then
        match rest with
        | 'a' :: 'l' :: 's' :: 'e' :: r => some (vBool false, r)
        | _ => none
      else if c = 'n' then
        match rest with
        | 'u' :: 'l' :: 'l' :: r => some (vNone, r)
        | _ => none
      else if c = '-' ∨ c.isDigit then parseNumber (c :: rest)
      else none

/-- Parse the remainder of a JSON array after `[` (input pre-skipped of
whitespace): either the closing bracket or a comma-separated element list. -/
def parseArrayTail : Nat → List Char → Option (List PyVal × List Char)
  | 0, _ => none
  | fuel + 1, l =>
    match l with
    | [] => none
    | c :: rest =>
      if c = ']' then some ([], rest)
      else
        match parseValue fuel l with
        | none => none
        | some (v, r1) =>
          match skipWs r1 with
          | [] => none
          | c2 :: r2 =>
            if c2 = ',' then
              let l3 := skipWs r2
              if l3.head? = some ']' then none
              else (parseArrayTail fuel l3).map (fun p => (v :: p.1, p.2))
            else if c2 = ']' then some ([v], r2)
            else none

/-- Parse the remainder of a JSON object after the opening brace (input
pre-skipped of whitespace): either the closing brace or comma-separated
`"key": value` members. -/
def parseObjectTail : Nat → List Char → Option (List (String × PyVal) × List Char)
  | 0, _ => none
  | fuel + 1, l =>
    match l with
    | [] => none
    | c :: rest =>
      if c = '}' then some ([], rest)
      else if c = '"' then
        match parseJStringAux rest with
        | none => none
        | some (kcs, r1) =>
          match skipWs r1 with
          | [] => none
          | c2 :: r2 =>
            if c2 = ':' then
              match parseValue fuel r2 with
              | none => none
              | some (v, r3) =>
                match skipWs r3 with
                | [] => none
                | c3 :: r4 =>
                  if c3 = ',' then
                    let l5 := skipWs r4
                    if l5.head? = some '}' then none
                    else (parseObjectTail fuel l5).map (fun p => ((String.mk kcs, v) :: p.1, p.2))
                  else if c3 = '}' then some ([(String.mk kcs, v)], r4)
                  else none
            else none
      else none

end

/-- Model of Python's `json.loads` on a string: parse one JSON document
with optional surrounding whitespace. -/
def jsonParse (s : String) : Except String PyVal :=
  let l := s.toList
  match parseValue (l.length + 1) l with
  | some (v, rest) => if skipWs rest = [] then .ok v else .error "Extra data"
  | none => .error "Expecting value"

/-- Model of Python's `json.loads` applied to an arbitrary value, as the
COMPARE step does to the data point's test-list fields: a non-string
argument raises `TypeError`. -/
def jsonLoads (v : PyVal) : Except String PyVal :=
  match v with
  | vStr s => jsonParse s
  | _ => .error "TypeError: the JSON object must be str, bytes or bytearray"

/-- Lowercase hexadecimal digit character for a value below 16. -/
def toHexDigit (n : Nat) : Char :=
  if n < 10 then Char.ofNat (48 + n) else Char.ofNat (87 + n)

/-- Four-digit lowercase hexadecimal rendering of a code unit. -/
def hex4 (n : Nat) : List Char :=
  [toHexDigit (n / 4096 % 16), toHexDigit (n / 256 % 16),
   toHexDigit (n / 16 % 16), toHexDigit (n % 16)]

/-- Escape one character the way Python's `json.dumps` does with its
`ensure_ascii=True` default: printable ASCII passes through, the short
escapes cover the usual controls, everything else becomes `\uXXXX`
(a surrogate pair for characters beyond the basic plane). -/
def escChar (c : Char) : List Char :=
  if c = '"' then ['\\', '"']
  else if c = '\\' then ['\\', '\\']
  else if c = '\n' then ['\\', 'n']
  else if c = '\t' then ['\\', 't']
  else if c = '\r' then ['\\', 'r']
  else if c.toNat = 8 then ['\\', 'b']
  else if c.toNat = 12 then ['\\', 'f']
  else if 0x20 ≤ c.toNat ∧ c.toNat ≤ 0x7E then [c]
  else if c.toNat < 0x10000 then '\\' :: 'u' :: hex4 c.toNat
  else '\\' :: 'u' :: hex4 (0xD800 + (c.toNat - 0x10000) / 0x400) ++
       '\\' :: 'u' :: hex4 (0xDC00 + (c.toNat - 0x10000) % 0x400)

/-- Escape a whole string for JSON output. -/
def escStr (s : String) : List Char :=
  s.toList.foldr (fun c acc => escChar c ++ acc) []

/-- Serialize a string as a quoted JSON string literal. -/
def dumpStr (s : String) : List Char :=
  '"' :: escStr s ++ ['"']

mutual

/-- Serialize a Python value the way `json.dumps` with default options
does (separators `', '` and `': '`). -/
def jsonDumpsChars : PyVal → List Char
  | vStr s => dumpStr s
  | vInt n => (toString n).toList
  | vNum s => s.toList
  | vBool b => if b then "true".toList else "false".toList
  | vNone => "null".toList
  | vList xs => '[' :: dumpElems xs ++ [']']
  | vDict kvs => '{' :: dumpMembers kvs ++ ['}']

/-- Serialize array elements separated by `', '`. -/
def dumpElems : List PyVal → List Char
  | [] => []
  | [x] => jsonDumpsChars x
  | x :: xs => jsonDumpsChars x ++ ',' :: ' ' :: dumpElems xs

/-- Serialize object members separated by `', '`, keys and values joined
by `': '`. -/
def dumpMembers : List (String × PyVal) → List Char
  | [] => []
  | [(k, v)] => dumpStr k ++ ':' :: ' ' :: jsonDumpsChars v
  | (k, v) :: kvs => dumpStr k ++ ':' :: ' ' :: jsonDumpsChars v ++ ',' :: ' ' :: dumpMembers kvs

end

/-- Model of Python's `json.dumps` with its default options. -/
def jsonDumps (v : PyVal) : String := String.mk (jsonDumpsChars v)

/-- The six mandatory fields `_validate_data_point` requires
(`data_loader.py` lines 116-123). -/
def required_fields : List String :=
  ["instance_id", "repo", "base_commit", "patch", "FAIL_TO_PASS", "PASS_TO_PASS"]

/-- Check of the required-fields loop (`data_loader.py` lines 126-129):
returns false at the first missing field, propagating any `in`-operator
exception. -/
def checkFields : List String → PyVal → Except String Bool
  | [], _ => .ok true
  | f :: fs, dp => do
      let c ← pyContains dp f
      if c then checkFields fs dp else .ok false

/-- Embedding of `DataPointLoader._validate_data_point`
(`data_loader.py` lines 106-145): require the six fields, a patch that
is non-empty after `strip()`, and truthiness of at least one of the two
test-list field values.  Exceptions (for instance `strip()` on a
non-string patch) propagate to the caller as `.error`. -/
def validate_data_point (data_point : PyVal) : Except String Bool := do
  let ok ← checkFields required_fields data_point
  if !ok then .ok false
  else do
    let patchv ← pyGet data_point "patch" (vStr "")
    let stripped ← pyStrip patchv
    if stripped.isEmpty then .ok false
    else do
      let fail_to_pass ← pyGet data_point "FAIL_TO_PASS" (vList [])
      let pass_to_pass ← pyGet data_point "PASS_TO_PASS" (vList [])
      if !pyTruthy fail_to_pass && !pyTruthy pass_to_pass then .ok false
      else .ok true

/-- Body of `DataPointLoader._load_single_data_point`'s `try` block
(`data_loader.py` lines 88-97) over the file's contents: deserialize,
validate, and return the record (or `none` when validation rejects it). -/
def load_single_data_point_body (contents : String) : Except String (Option PyVal) := do
  let data_point ← jsonParse contents
  let ok ← validate_data_point data_point
  if ok then .ok (some data_point) else .ok none

/-- Embedding of `DataPointLoader._load_single_data_point`
(`data_loader.py` lines 78-104): every exception of the body —
deserialization or validation — is caught and turns into `none`. -/
def load_single_data_point (contents : String) : Option PyVal :=
  match load_single_data_point_body contents with
  | .ok r => r
  | .error _ => none

/-- Whether a file name carries the `.json` extension. -/
def endsWithJson (s : String) : Bool :=
  decide (List.IsSuffix ".json".toList s.toList)

/-- Resolution of explicit target names (`data_loader.py` lines 44-56):
append `.json` when absent and keep, in order, only the names of files
that exist in the directory. -/
def resolve_file_names (files : List (String × String)) (file_names : List String) : List String :=
  file_names.filterMap (fun fn0 =>
    let fn := if endsWithJson fn0 then fn0 else fn0 ++ ".json"
    if (files.lookup fn).isSome then some fn else none)

/-- Discovery of every `*.json` file of the directory
(`data_loader.py` line 43), in directory order. -/
def glob_json (files : List (String × String)) : List String :=
  (files.map Prod.fst).filter endsWithJson

/-- Embedding of `DataPointLoader.load_data_points_by_files`
(`data_loader.py` lines 22-76).  The directory is modelled as an
existence flag plus an association list from file name to contents. -/
def load_data_points_by_files (dirExists : Bool) (files : List (String × String))
    (file_names : Option (List String)) : List PyVal :=
  if !dirExists then []
  else
    let json_files := match file_names with
      | none => glob_json files
      | some ns => resolve_file_names files ns
    json_files.filterMap (fun jf => (files.lookup jf).bind load_single_data_point)

/-- Embedding of `PredictionFormatter._convert_single_data_point`
(`formatter.py` lines 55-79): a falsy `instance_id` or `patch` yields no
prediction; otherwise the three-field prediction dictionary is built. -/
def convert_single_data_point (model_name : String) (data_point : PyVal) :
    Except String (Option PyVal) := do
  let instance_id ← pyGet data_point "instance_id" vNone
  let patch ← pyGet data_point "patch" vNone
  if !pyTruthy instance_id || !pyTruthy patch then .ok none
  else .ok (some (vDict [("instance_id", instance_id),
                         ("model_name_or_path", vStr model_name),
                         ("model_patch", patch)]))

/-- Embedding of `PredictionFormatter.convert_to_predictions`
(`formatter.py` lines 26-53): convert each record in order, dropping the
inconvertible ones; an exception while converting one record (for
instance `get` on a non-dictionary) propagates out of the whole call. -/
def convert_to_predictions : String → List PyVal → Except String (List PyVal)
  | _, [] => .ok []
  | model_name, dp :: rest => do
      let p ← convert_single_data_point model_name dp
      let ps ← convert_to_predictions model_name rest
      match p with
      | some pr => .ok (pr :: ps)
      | none => .ok ps

/-- Lines `PredictionFormatter.save_predictions_to_file` writes
(`formatter.py` lines 95-97): one serialized prediction per line, in
list order.  Each `f.write(json.dumps(prediction) + '\n')` contributes
exactly one line, the serializer output containing no newline. -/
def save_predictions_lines (predictions : List PyVal) : List String :=
  predictions.map (fun p => jsonDumps p)

/-- Modelled from the spec: re-reading the persisted JSONL stream (no code
of this repository reads predictions files back; the spec's round-trip
property re-reads "the persisted lines") parses each persisted line. -/
def read_predictions_lines (lines : List String) : List (Except String PyVal) :=
  lines.map jsonParse

/-- Outcome of the docker subprocess invocation, supplied as an oracle:
an exit code, a timeout, or a launch failure. -/
inductive DockerOutcome where
  | exited (code : Int)
  | timeout
  | launchError (msg : String)
deriving DecidableEq

/-- Result dictionary of `_run_docker_evaluation`. -/
structure DockerResult where
  success : Bool
  error : Option String
deriving DecidableEq

/-- Embedding of `SWEBenchValidator._run_docker_evaluation`
(`validate_swe_bench.py` lines 146-174): exit code 0 is success; a
non-zero code, a timeout, and a launch error are failures with
distinguishing reason strings. -/
def run_docker_evaluation : DockerOutcome → DockerResult
  | .exited code =>
      if code = 0 then ⟨true, none⟩ else ⟨false, some ("Exit code: " ++ toString code)⟩
  | .timeout => ⟨false, some "Timeout"⟩
  | .launchError e => ⟨false, some e⟩

/-- Result dictionary of `_validate_single_result`
(`validate_swe_bench.py` lines 186-232), one constructor per `return`
site of distinct shape. -/
inductive VRes where
  | report_not_found (error : String)
  | read_error (error : String)
  | classified (status : String) (resolved : PyVal)
      (fail_to_pass_match pass_to_pass_match : Bool)
      (expected_fail_to_pass actual_fail_to_pass : PyVal)
      (expected_pass_to_pass actual_pass_to_pass : PyVal)
deriving DecidableEq

/-- The `status` entry of a `_validate_single_result` dictionary. -/
def VRes.status : VRes → String
  | .report_not_found _ => "report_not_found"
  | .read_error _ => "read_error"
  | .classified s _ _ _ _ _ _ _ => s

/-- Whether a Python value is hashable (may be a member of a set). -/
def hashablePy : PyVal → Bool
  | vList _ => false
  | vDict _ => false
  | _ => true

/-- Python's `set(v)`: the set of elements of a list (error on an
unhashable element), of single-character strings of a string, of keys of
a dictionary; non-iterable values raise `TypeError`.  Python's cross-type
numeric equality (`1 == 1.0 == True`) is not modelled; no claim mixes
element types inside one set. -/
def pySet (v : PyVal) : Except String (Finset PyVal) :=
  match v with
  | vList xs => if xs.all hashablePy then .ok xs.toFinset else .error "TypeError: unhashable type"
  | vStr s => .ok ((s.toList.map (fun c => vStr (String.mk [c]))).toFinset)
  | vDict kvs => .ok ((kvs.map (fun kv => vStr kv.1)).toFinset)
  | _ => .error "TypeError: object is not iterable"

/-- Body of the `try` block of `_validate_single_result` after the report
deserialized (`validate_swe_bench.py` lines 199-226): extract the actual
success lists with empty defaults, compare as sets, pull `resolved`, and
classify `success` exactly when both matches hold and `resolved` is
truthy, `test_mismatch` otherwise. -/
def compare_report (expected_fail_to_pass expected_pass_to_pass : PyVal)
    (instance_id : String) (report : PyVal) : Except String VRes := do
  let instance_report ← pyGet report instance_id (vDict [])
  let tests_status ← pyGet instance_report "tests_status" (vDict [])
  let ftp_entry ← pyGet tests_status "FAIL_TO_PASS" (vDict [])
  let actual_fail_to_pass ← pyGet ftp_entry "success" (vList [])
  let ptp_entry ← pyGet tests_status "PASS_TO_PASS" (vDict [])
  let actual_pass_to_pass ← pyGet ptp_entry "success" (vList [])
  let se1 ← pySet expected_fail_to_pass
  let sa1 ← pySet actual_fail_to_pass
  let fail_to_pass_match := decide (se1 = sa1)
  let se2 ← pySet expected_pass_to_pass
  let sa2 ← pySet actual_pass_to_pass
  let pass_to_pass_match := decide (se2 = sa2)
  let is_resolved ← pyGet instance_report "resolved" (vBool false)
  let status :=
    if fail_to_pass_match && pass_to_pass_match && pyTruthy is_resolved then "success"
    else "test_mismatch"
  .ok (VRes.classified status is_resolved fail_to_pass_match pass_to_pass_match
        expected_fail_to_pass actual_fail_to_pass expected_pass_to_pass actual_pass_to_pass)

/-- Path of the report artifact below a logs directory
(`validate_swe_bench.py` line 186). -/
def report_path (logs_dir instance_id : String) : String :=
  logs_dir ++ "/" ++ instance_id ++ "/report.json"

/-- Use of a Python value as a path segment (`Path / value`): only a
string is accepted, anything else raises `TypeError`. -/
def pyPathSeg (v : PyVal) : Except String String :=
  match v with
  | vStr s => .ok s
  | _ => .error "TypeError: argument should be a str or an os.PathLike object"

/-- Embedding of `SWEBenchValidator._validate_single_result`
(`validate_swe_bench.py` lines 176-232).  The report file system is an
oracle from path to contents.  The two `json.loads` of the data point's
test-list fields happen before the report path is consulted and outside
any `try`, so their exceptions propagate (`.error`); the report-reading
`try` turns every inner exception into the `read_error` outcome. -/
def validate_single_result (data_point : PyVal) (logs_dir : String)
    (reports : String → Option String) : Except String VRes := do
  let instance_idv ← pyIndex data_point "instance_id"
  let ftpv ← pyIndex data_point "FAIL_TO_PASS"
  let expected_fail_to_pass ← jsonLoads ftpv
  let ptpv ← pyIndex data_point "PASS_TO_PASS"
  let expected_pass_to_pass ← jsonLoads ptpv
  let instance_id ← pyPathSeg instance_idv
  match reports (report_path logs_dir instance_id) with
  | none =>
      .ok (VRes.report_not_found ("File " ++ report_path logs_dir instance_id ++ " not found"))
  | some contents =>
      .ok (match (do
              let report ← jsonParse contents
              compare_report expected_fail_to_pass expected_pass_to_pass instance_id report :
            Except String VRes) with
          | .ok v => v
          | .error e => VRes.read_error e)

/-- Result dictionary of `_validate_single_file`
(`validate_swe_bench.py` lines 92-144), fields that a given `return`
site omits being `none`. -/
structure FileResult where
  success : Bool
  error : Option String := none
  instance_id : Option PyVal := none
  run_id : Option String := none
  validation_result : Option VRes := none
deriving DecidableEq

/-- Environment of one validator run: the data-point directory (existence
flag and contents), writability of prediction files, the docker
subprocess outcome per (predictions file, run id), and the report-artifact
file system. -/
structure Env where
  dirExists : Bool
  dataFiles : List (String × String)
  saveOk : String → Bool
  docker : String → String → DockerOutcome
  reports : String → Option String

/-- Logs directory for a run (`validate_swe_bench.py` line 104). -/
def logs_dir_for (run_id : String) : String :=
  "logs/run_evaluation/" ++ run_id ++ "/gpt-4"

/-- Body of the `try` block of `_validate_single_file`
(`validate_swe_bench.py` lines 106-140): the five pipeline steps in
order, each failure returning early with its reason. -/
def validate_single_file_body (env : Env) (file_name : String) : Except String FileResult := do
  let run_id := file_name
  let predictions_file := "predictions_" ++ file_name ++ ".jsonl"
  let logs_dir := logs_dir_for run_id
  let data_points := load_data_points_by_files env.dirExists env.dataFiles (some [file_name])
  match data_points with
  | [] => .ok { success := false, error := some ("Failed to load " ++ file_name ++ ".json") }
  | data_point :: _ => do
    let instance_id ← pyGet data_point "instance_id" (vStr "unknown")
    let predictions ← convert_to_predictions "gpt-4" [data_point]
    if predictions.isEmpty then
      .ok { success := false, error := some "Failed to convert to prediction" }
    else if !env.saveOk predictions_file then
      .ok { success := false, error := some "Failed to save prediction" }
    else
      let docker_result := run_docker_evaluation (env.docker predictions_file run_id)
      if !docker_result.success then
        .ok { success := false,
              error := some ("Docker evaluation failed: " ++ docker_result.error.getD "") }
      else do
        let validation_result ← validate_single_result data_point logs_dir env.reports
        .ok { success := true, error := none, instance_id := some instance_id,
              run_id := some run_id, validation_result := some validation_result }

/-- Embedding of `SWEBenchValidator._validate_single_file`
(`validate_swe_bench.py` lines 92-144): the surrounding `try/except`
turns any exception of the body into a failure result carrying the
exception's text. -/
def validate_single_file (env : Env) (file_name : String) : FileResult :=
  match validate_single_file_body env file_name with
  | .ok r => r
  | .error e => { success := false, error := some e }

/-- The per-file success test of the aggregation loop
(`validate_swe_bench.py` line 76): the pipeline result must carry
`success` and its nested validation result must have status `success`. -/
def counts_success (fr : FileResult) : Bool :=
  fr.success && (match fr.validation_result with
    | some v => v.status == "success"
    | none => false)

/-- Result of `validate_data_points`: either the top-level error
dictionary or the aggregate dictionary. -/
inductive TopResult where
  | err (msg : String)
  | results (total_files successful_files failed_files : Nat)
      (file_results : List (String × FileResult)) (success_rate : ℚ)
deriving DecidableEq

/-- Strip the `.json` extension (`Path.stem` on a discovered file). -/
def strip_json_ext (s : String) : String := s.dropRight 5

/-- Embedding of `SWEBenchValidator.validate_data_points`
(`validate_swe_bench.py` lines 38-90): resolve the target names (or
discover `*.json` stems), fail on an empty set, then run the per-file
pipeline for each name independently, counting a file successful exactly
when `counts_success` holds, and compute the success rate.  The source
keys `file_results` by name in a dictionary; the embedding keeps the
(name, result) pairs in processing order. -/
def validate_data_points (env : Env) (file_names : Option (List String)) : TopResult :=
  let names := match file_names with
    | none => (glob_json env.dataFiles).map strip_json_ext
    | some ns => ns
  if names.isEmpty then .err "No files found for processing"
  else
    let step := fun (acc : Nat × Nat × List (String × FileResult)) (n : String) =>
      let fr := validate_single_file env n
      (acc.1 + (if counts_success fr then 1 else 0),
       acc.2.1 + (if counts_success fr then 0 else 1),
       acc.2.2 ++ [(n, fr)])
    let res := names.foldl step (0, 0, [])
    let success_rate : ℚ :=
      if 0 < names.length then (res.1 : ℚ) / (names.length : ℚ) * 100 else 0
    .results names.length res.1 res.2.1 res.2.2 success_rate

/-- Sample environment used to evaluate the embedding on concrete data: a
directory with one fully valid data point (`ok.json`, whose report exists
and matches), one with a whitespace-only patch (`badpatch.json`), and one
valid data point whose report is absent (`noreport.json`). -/
def sampleEnv : Env :=
  { dirExists := true
    dataFiles :=
      [("ok.json", "\x7b\"instance_id\": \"foo\", \"repo\": \"r\", \"base_commit\": \"c\", \"patch\": \"fix\", \"FAIL_TO_PASS\": \"[\\\"t1\\\"]\", \"PASS_TO_PASS\": \"[]\"\x7d"),
       ("badpatch.json", "\x7b\"instance_id\": \"bar\", \"repo\": \"r\", \"base_commit\": \"c\", \"patch\": \"  \", \"FAIL_TO_PASS\": \"[\\\"t1\\\"]\", \"PASS_TO_PASS\": \"[]\"\x7d"),
       ("noreport.json", "\x7b\"instance_id\": \"baz\", \"repo\": \"r\", \"base_commit\": \"c\", \"patch\": \"fix2\", \"FAIL_TO_PASS\": \"[\\\"t2\\\"]\", \"PASS_TO_PASS\": \"[]\"\x7d")]
    saveOk := fun _ => true
    docker := fun _ _ => .exited 0
    reports := fun p =>
      if p = "logs/run_evaluation/ok/gpt-4/foo/report.json"
      then some "\x7b\"foo\": \x7b\"resolved\": true, \"tests_status\": \x7b\"FAIL_TO_PASS\": \x7b\"success\": [\"t1\"]\x7d, \"PASS_TO_PASS\": \x7b\"success\": []\x7d\x7d\x7d\x7d"
      else none }

/-- Per-record conversion as a pure partial function: the prediction a
record yields when `_convert_single_data_point` neither raises nor drops
it.  A successful batch conversion is the in-order `filterMap` of this
function over its input. -/
def convert_pure (model_name : String) (dp : PyVal) : Option PyVal :=
  match convert_single_data_point model_name dp with
  | .ok r => r
  | .error _ => none

theorem hexVal_toHexDigit : ∀ n : Nat, n < 16 → hexVal (toHexDigit n) = some n := by decide

theorem readHex4_hex4 {n : Nat} (tail : List Char) (hlt : n < 0x10000) :
    readHex4 (hex4 n ++ tail) = some (n, tail) := by
  have e1 := hexVal_toHexDigit (n / 4096 % 16) (by omega)
  have e2 := hexVal_toHexDigit (n / 256 % 16) (by omega)
  have e3 := hexVal_toHexDigit (n / 16 % 16) (by omega)
  have e4 := hexVal_toHexDigit (n % 16) (by omega)
  have d1 : n / 256 / 16 = n / 4096 := by rw [Nat.div_div_eq_div_mul]
  have d2 : n / 16 / 16 = n / 256 := by rw [Nat.div_div_eq_div_mul]
  have d3 : n / 4096 / 16 = n / 65536 := by rw [Nat.div_div_eq_div_mul]
  simp only [hex4, List.cons_append, List.nil_append, readHex4, e1, e2, e3, e4]
  congr 1
  congr 1
  omega

theorem decodeU_hex4 {n : Nat} (tail : List Char) (hlt : n < 0x10000)
    (hs : ¬(0xD800 ≤ n ∧ n < 0xE000)) :
    decodeU (hex4 n ++ tail) = some (Char.ofNat n, tail) := by
  unfold decodeU
  simp only [readHex4_hex4 tail hlt]
  rw [if_neg (by omega)]

theorem decodeU_pair (hi lo : Nat) (tail : List Char)
    (hhi : 0xD800 ≤ hi ∧ hi < 0xDC00) (hlo : 0xDC00 ≤ lo ∧ lo < 0xE000) :
    decodeU (hex4 hi ++ ('\\' :: 'u' :: (hex4 lo ++ tail))) =
      some (Char.ofNat (0x10000 + (hi - 0xD800) * 0x400 + (lo - 0xDC00)), tail) := by
  unfold decodeU
  simp only [readHex4_hex4 _ (show hi < 0x10000 by omega)]
  rw [if_pos hhi]
  unfold decodeLowSurrogate
  dsimp only
  rw [if_pos ⟨rfl, rfl⟩]
  simp only [readHex4_hex4 _ (show lo < 0x10000 by omega)]
  rw [if_pos hlo]

theorem char_toNat_valid (c : Char) : c.toNat < 0xD800 ∨ (0xDFFF < c.toNat ∧ c.toNat < 0x110000) :=
  c.valid

theorem parseJStringAuxF_cons (fuel : Nat) (c : Char) (rest : List Char) :
    parseJStringAuxF (fuel + 1) (c :: rest) =
      if c = '"' then some ([], rest)
      else if c = '\\' then
        match decodeEscape rest with
        | some (c2, r) => (parseJStringAuxF fuel r).map (fun p => (c2 :: p.1, p.2))
        | none => none
      else if c.toNat < 0x20 then none
      else (parseJStringAuxF fuel rest).map (fun p => (c :: p.1, p.2)) := rfl

theorem decodeEscape_u (rest : List Char) : decodeEscape ('u' :: rest) = decodeU rest := by
  simp [decodeEscape]

theorem parseJStringAuxF_escChar (c : Char) (tail : List Char) (fuel : Nat) :
    parseJStringAuxF (fuel + 1) (escChar c ++ tail) =
      (parseJStringAuxF fuel tail).map (fun p => (c :: p.1, p.2)) := by
  have hval := char_toNat_valid c
  unfold escChar
  by_cases h1 : c = '"'
  · subst h1
    simp +decide [parseJStringAuxF_cons, decodeEscape, simpleUnescape]
  rw [if_neg h1]
  by_cases h2 : c = '\\'
  · subst h2
    simp +decide [parseJStringAuxF_cons, decodeEscape, simpleUnescape]
  rw [if_neg h2]
  by_cases h3 : c = '\n'
  · subst h3
    simp +decide [parseJStringAuxF_cons, decodeEscape, simpleUnescape]
  rw [if_neg h3]
  by_cases h4 : c = '\t'
  · subst h4
    simp +decide [parseJStringAuxF_cons, decodeEscape, simpleUnescape]
  rw [if_neg h4]
  by_cases h5 : c = '\r'
  · subst h5
    simp +decide [parseJStringAuxF_cons, decodeEscape, simpleUnescape]
  rw [if_neg h5]
  by_cases h6 : c.toNat = 8
  · have hc : c = Char.ofNat 8 := by
      rw [← h6, Char.ofNat_toNat]
    subst hc
    simp +decide [parseJStringAuxF_cons, decodeEscape, simpleUnescape]
  rw [if_neg h6]
  by_cases h7 : c.toNat = 12
  · have hc : c = Char.ofNat 12 := by
      rw [← h7, Char.ofNat_toNat]
    subst hc
    simp +decide [parseJStringAuxF_cons, decodeEscape, simpleUnescape]
  rw [if_neg h7]
  by_cases h8 : 0x20 ≤ c.toNat ∧ c.toNat ≤ 0x7E
  · rw [if_pos h8]
    rw [List.cons_append, List.nil_append, parseJStringAuxF_cons]
    rw [if_neg h1, if_neg h2, if_neg (by omega)]
  rw [if_neg h8]
  by_cases h9 : c.toNat < 0x10000
  · rw [if_pos h9]
    simp only [List.cons_append, List.append_assoc, List.nil_append]
    rw [parseJStringAuxF_cons]
    rw [if_neg (by decide), if_pos rfl, decodeEscape_u]
    rw [decodeU_hex4 tail h9 (by omega)]
    rw [Char.ofNat_toNat]
  rw [if_neg h9]
  simp only [List.cons_append, List.append_assoc, List.nil_append]
  rw [parseJStringAuxF_cons]
  rw [if_neg (by decide), if_pos rfl, decodeEscape_u]
  rw [decodeU_pair _ _ tail
      (by constructor <;> omega)
      (by have := Nat.mod_lt (c.toNat - 0x10000) (show 0 < 0x400 by omega); constructor <;> omega)]
  have harith : 0x10000 + (0xD800 + (c.toNat - 0x10000) / 0x400 - 0xD800) * 0x400 +
      (0xDC00 + (c.toNat - 0x10000) % 0x400 - 0xDC00) = c.toNat := by
    have := Nat.div_add_mod (c.toNat - 0x10000) 0x400
    omega
  rw [harith, Char.ofNat_toNat]

theorem parseJStringAuxF_escStr (s : List Char) (tail : List Char) (fuel : Nat)
    (h : s.length + 1 ≤ fuel) :
    parseJStringAuxF fuel (s.foldr (fun c acc => escChar c ++ acc) [] ++ '"' :: tail) =
      some (s, tail) := by
  induction s generalizing fuel with
  | nil =>
    obtain ⟨f, rfl⟩ : ∃ f, fuel = f + 1 := ⟨fuel - 1, by omega⟩
    simp +decide [parseJStringAuxF_cons]
  | cons c cs ih =>
    obtain ⟨f, rfl⟩ : ∃ f, fuel = f + 1 := ⟨fuel - 1, by omega⟩
    simp only [List.foldr_cons, List.append_assoc]
    rw [parseJStringAuxF_escChar]
    rw [ih f (by simp only [List.length_cons] at h; omega)]
    rfl

theorem escStr_eq_foldr (s : String) :
    escStr s = s.toList.foldr (fun c acc => escChar c ++ acc) [] := rfl

theorem escChar_length_pos (c : Char) : 0 < (escChar c).length := by
  unfold escChar
  repeat' split
  all_goals simp [hex4]

theorem escStr_length_ge (s : List Char) :
    s.length ≤ (s.foldr (fun c acc => escChar c ++ acc) []).length := by
  induction s with
  | nil => simp
  | cons c cs ih =>
    simp only [List.foldr_cons, List.length_append, List.length_cons]
    have := escChar_length_pos c
    omega

theorem string_mk_toList (s : String) : String.mk s.toList = s := rfl

theorem parseJStringAux_dump (s : String) (tail : List Char) :
    parseJStringAux (escStr s ++ '"' :: tail) = some (s.toList, tail) := by
  unfold parseJStringAux
  rw [escStr_eq_foldr, parseJStringAuxF_escStr]
  have h1 := escStr_length_ge s.toList
  simp only [List.length_append, List.length_cons]
  omega

theorem skipWs_cons (c : Char) (l : List Char) (h : isJsonWs c = false) :
    skipWs (c :: l) = c :: l := by simp [skipWs, h]

theorem parseValue_dumpStr (s : String) (tail : List Char) (fuel : Nat) :
    parseValue (fuel + 1) (dumpStr s ++ tail) = some (vStr s, tail) := by
  unfold dumpStr
  simp only [List.cons_append, List.append_assoc, List.singleton_append]
  unfold parseValue
  rw [skipWs_cons _ _ (by decide)]
  dsimp only
  rw [if_pos rfl]
  rw [parseJStringAux_dump]
  simp [string_mk_toList]

theorem parseValue_skip_space (fuel : Nat) (l : List Char) :
    parseValue (fuel + 1) (' ' :: l) = parseValue (fuel + 1) l := by
  unfold parseValue
  rw [show skipWs (' ' :: l) = skipWs l by simp [skipWs, isJsonWs]]

theorem dumpMembers_cons_head (k : String) (v : PyVal) (rest : List (String × PyVal)) :
    ∃ r, dumpMembers ((k, v) :: rest) = '"' :: r := by
  cases rest with
  | nil => exact ⟨escStr k ++ '"' :: (':' :: ' ' :: jsonDumpsChars v), by
      simp [dumpMembers, dumpStr]⟩
  | cons kv2 rest2 => exact ⟨escStr k ++ '"' :: (':' :: ' ' :: (jsonDumpsChars v ++
      ',' :: ' ' :: dumpMembers (kv2 :: rest2))), by
      simp [dumpMembers, dumpStr]⟩


theorem parseObjectTail_members (kvs : List (String × String)) (tail : List Char) (fuel : Nat)
    (hne : kvs ≠ []) (hfuel : kvs.length + 1 ≤ fuel) :
    parseObjectTail fuel (dumpMembers (kvs.map (fun p => (p.1, vStr p.2))) ++ '}' :: tail) =
      some (kvs.map (fun p => (p.1, vStr p.2)), tail) := by
  induction kvs generalizing fuel with
  | nil => exact absurd rfl hne
  | cons kv rest ih =>
    obtain ⟨f, rfl⟩ : ∃ f, fuel = f + 1 := ⟨fuel - 1, by omega⟩
    obtain ⟨f2, rfl⟩ : ∃ f2, f = f2 + 1 := ⟨f - 1, by
      simp only [List.length_cons] at hfuel; omega⟩
    cases rest with
    | nil =>
      simp only [List.map_cons, List.map_nil]
      rw [show dumpMembers [(kv.1, vStr kv.2)] =
          dumpStr kv.1 ++ ':' :: ' ' :: dumpStr kv.2 from rfl]
      unfold dumpStr
      simp only [List.cons_append, List.append_assoc, List.singleton_append]
      unfold parseObjectTail
      try dsimp only
      rw [if_neg (by decide), if_pos rfl]
      rw [parseJStringAux_dump]
      simp only [List.nil_append]
      try dsimp only
      rw [skipWs_cons _ _ (by decide)]
      try dsimp only
      rw [if_pos rfl]
      rw [show parseValue (f2 + 1) (' ' :: ('"' :: (escStr kv.2 ++ '"' :: ('}' :: tail)))) =
          some (vStr kv.2, '}' :: tail) by
        rw [parseValue_skip_space]
        rw [show ('"' :: (escStr kv.2 ++ '"' :: ('}' :: tail))) =
            (dumpStr kv.2 ++ '}' :: tail) by unfold dumpStr; simp]
        rw [parseValue_dumpStr]]
      try dsimp only
      rw [skipWs_cons _ _ (by decide)]
      try dsimp only
      rw [if_neg (by decide), if_pos rfl, string_mk_toList]
    | cons kv2 rest2 =>
      simp only [List.map_cons]
      rw [show dumpMembers ((kv.1, vStr kv.2) :: (kv2.1, vStr kv2.2) ::
            List.map (fun p => (p.1, vStr p.2)) rest2) =
          dumpStr kv.1 ++ ':' :: ' ' :: (dumpStr kv.2 ++
            ',' :: ' ' :: dumpMembers ((kv2.1, vStr kv2.2) ::
              List.map (fun p => (p.1, vStr p.2)) rest2)) by
        simp [dumpMembers, jsonDumpsChars]]
      unfold dumpStr
      simp only [List.cons_append, List.append_assoc, List.singleton_append]
      unfold parseObjectTail
      try dsimp only
      rw [if_neg (by decide), if_pos rfl]
      rw [parseJStringAux_dump]
      simp only [List.nil_append]
      try dsimp only
      rw [skipWs_cons _ _ (by decide)]
      try dsimp only
      rw [if_pos rfl]
      rw [show parseValue (f2 + 1) (' ' :: ('"' :: (escStr kv.2 ++ '"' :: (',' :: ' ' ::
            (dumpMembers ((kv2.1, vStr kv2.2) :: List.map (fun p => (p.1, vStr p.2)) rest2) ++
              '}' :: tail))))) =
          some (vStr kv.2, ',' :: ' ' ::
            (dumpMembers ((kv2.1, vStr kv2.2) :: List.map (fun p => (p.1, vStr p.2)) rest2) ++
              '}' :: tail)) by
        rw [parseValue_skip_space]
        rw [show ('"' :: (escStr kv.2 ++ '"' :: (',' :: ' ' ::
              (dumpMembers ((kv2.1, vStr kv2.2) :: List.map (fun p => (p.1, vStr p.2)) rest2) ++
                '}' :: tail)))) =
            (dumpStr kv.2 ++ ',' :: ' ' ::
              (dumpMembers ((kv2.1, vStr kv2.2) :: List.map (fun p => (p.1, vStr p.2)) rest2) ++
                '}' :: tail)) by unfold dumpStr; simp]
        rw [parseValue_dumpStr]]
      try dsimp only
      rw [skipWs_cons _ _ (by decide)]
      try dsimp only
      rw [if_pos rfl]
      obtain ⟨r, hr⟩ := dumpMembers_cons_head kv2.1 (vStr kv2.2)
        (List.map (fun p => (p.1, vStr p.2)) rest2)
      rw [hr]
      rw [show skipWs (' ' :: ('"' :: r ++ '}' :: tail)) = '"' :: (r ++ '}' :: tail) by
        simp [skipWs, isJsonWs]]
      rw [if_neg (show ¬(('"' :: (r ++ '}' :: tail)).head? = some '}') by simp)]
      rw [show ('"' :: (r ++ '}' :: tail)) = (('"' :: r) ++ '}' :: tail) by simp]
      rw [← hr]
      rw [show (dumpMembers ((kv2.1, vStr kv2.2) :: List.map (fun p => (p.1, vStr p.2)) rest2) ++
            '}' :: tail) =
          (dumpMembers (((kv2.1, kv2.2) :: rest2).map (fun p => (p.1, vStr p.2))) ++
            '}' :: tail) by simp]
      rw [ih (f2 + 1) (List.cons_ne_nil _ _) (by simp only [List.length_cons] at hfuel ⊢; omega)]
      simp

theorem string_toList_mk (l : List Char) : (String.mk l).toList = l := rfl

theorem dictInsert_notMem (acc : List (String × PyVal)) (k : String) (v : PyVal)
    (h : k ∉ acc.map Prod.fst) : dictInsert acc k v = acc ++ [(k, v)] := by
  induction acc with
  | nil => rfl
  | cons kv rest ih =>
    simp only [List.map_cons, List.mem_cons, not_or] at h
    unfold dictInsert
    rw [if_neg (fun hh => h.1 hh.symm)]
    rw [ih h.2]
    simp

theorem foldl_dictInsert (kvs : List (String × PyVal)) :
    ∀ acc : List (String × PyVal), ((acc ++ kvs).map Prod.fst).Nodup →
      kvs.foldl (fun a kv => dictInsert a kv.1 kv.2) acc = acc ++ kvs := by
  induction kvs with
  | nil => intro acc _; simp
  | cons kv rest ih =>
    intro acc h
    simp only [List.foldl_cons]
    have hk : kv.1 ∉ acc.map Prod.fst := by
      rw [List.map_append] at h
      have hd := (List.nodup_append.mp h).2.2
      intro hm
      exact hd hm (by simp)
    rw [dictInsert_notMem acc kv.1 kv.2 hk]
    rw [ih (acc ++ [kv]) (by simpa using h)]
    simp

theorem buildDict_nodup (kvs : List (String × PyVal))
    (h : (kvs.map Prod.fst).Nodup) : buildDict kvs = kvs := by
  unfold buildDict
  have := foldl_dictInsert kvs [] (by simpa using h)
  simpa using this

theorem parseValue_dumpFlat (kvs : List (String × String)) (tail : List Char) (fuel : Nat)
    (hfuel : kvs.length + 1 ≤ fuel) (hnd : (kvs.map Prod.fst).Nodup) (hne : kvs ≠ []) :
    parseValue (fuel + 1) (jsonDumpsChars (vDict (kvs.map (fun p => (p.1, vStr p.2)))) ++ tail) =
      some (vDict (kvs.map (fun p => (p.1, vStr p.2))), tail) := by
  rw [show jsonDumpsChars (vDict (kvs.map (fun p => (p.1, vStr p.2)))) =
      '{' :: dumpMembers (kvs.map (fun p => (p.1, vStr p.2))) ++ ['}'] from rfl]
  simp only [List.cons_append, List.append_assoc, List.singleton_append]
  unfold parseValue
  rw [skipWs_cons _ _ (by decide)]
  try dsimp only
  rw [if_neg (by decide), if_pos rfl]
  simp only [List.nil_append]
  obtain ⟨kv, rest, rfl⟩ : ∃ kv rest, kvs = kv :: rest := by
    cases kvs with
    | nil => exact absurd rfl hne
    | cons kv rest => exact ⟨kv, rest, rfl⟩
  obtain ⟨r, hr⟩ := dumpMembers_cons_head kv.1 (vStr kv.2)
    (List.map (fun p => (p.1, vStr p.2)) rest)
  simp only [List.map_cons] at hr ⊢
  rw [hr]
  rw [show skipWs ('"' :: r ++ '}' :: tail) = '"' :: r ++ '}' :: tail from
    skipWs_cons _ _ (by decide)]
  rw [show ('"' :: r ++ '}' :: tail) = (('"' :: r) ++ '}' :: tail) by simp]
  rw [← hr]
  rw [show (dumpMembers ((kv.1, vStr kv.2) :: List.map (fun p => (p.1, vStr p.2)) rest)) =
      (dumpMembers (((kv.1, kv.2) :: rest).map (fun p => (p.1, vStr p.2)))) by simp]
  rw [parseObjectTail_members ((kv.1, kv.2) :: rest) tail fuel (List.cons_ne_nil _ _)
      (by simpa using hfuel)]
  rw [Option.map_some']
  rw [buildDict_nodup _ (by
    simp only [List.map_cons, List.map_map]
    simpa [Function.comp] using hnd)]
  simp

theorem dumpMembers_length_ge (kvs : List (String × PyVal)) :
    kvs.length ≤ (dumpMembers kvs).length := by
  induction kvs with
  | nil => simp [dumpMembers]
  | cons kv rest ih =>
    cases rest with
    | nil => simp [dumpMembers, dumpStr]
    | cons kv2 rest2 =>
      rw [show dumpMembers (kv :: kv2 :: rest2) =
          dumpStr kv.1 ++ ':' :: ' ' :: (jsonDumpsChars kv.2 ++
            ',' :: ' ' :: dumpMembers (kv2 :: rest2)) by simp [dumpMembers]]
      simp only [List.length_cons, List.length_append, dumpStr]
      simp only [List.length_cons, List.length_append] at ih ⊢
      omega

theorem jsonParse_dumpFlat (kvs : List (String × String))
    (hnd : (kvs.map Prod.fst).Nodup) (hne : kvs ≠ []) :
    jsonParse (jsonDumps (vDict (kvs.map (fun p => (p.1, vStr p.2))))) =
      .ok (vDict (kvs.map (fun p => (p.1, vStr p.2)))) := by
  unfold jsonParse jsonDumps
  rw [string_toList_mk]
  dsimp only
  have hlen : kvs.length + 1 ≤ (jsonDumpsChars (vDict (kvs.map (fun p => (p.1, vStr p.2))))).length := by
    rw [show jsonDumpsChars (vDict (kvs.map (fun p => (p.1, vStr p.2)))) =
        '{' :: dumpMembers (kvs.map (fun p => (p.1, vStr p.2))) ++ ['}'] from rfl]
    have := dumpMembers_length_ge (kvs.map (fun p => (p.1, vStr p.2)))
    simp only [List.length_map] at this
    simp only [List.length_cons, List.length_append, List.length_singleton]
    omega
  obtain ⟨f, hf⟩ : ∃ f, (jsonDumpsChars (vDict (kvs.map (fun p => (p.1, vStr p.2))))).length + 1 = f + 1 :=
    ⟨_, rfl⟩
  rw [hf]
  rw [show (jsonDumpsChars (vDict (kvs.map (fun p => (p.1, vStr p.2))))) =
      (jsonDumpsChars (vDict (kvs.map (fun p => (p.1, vStr p.2)))) ++ []) by simp]
  rw [parseValue_dumpFlat kvs [] f (by omega) hnd hne]
  simp [skipWs]

theorem except_bind_ok {α β : Type} (x : α) (f : α → Except String β) :
    (Except.ok x >>= f) = f x := rfl

theorem except_bind_error {α β : Type} (e : String) (f : α → Except String β) :
    ((Except.error e : Except String α) >>= f) = .error e := rfl

/-- C1: with the report artifact present and deserializable and every
extraction step succeeding, the COMPARE step classifies `success` exactly
when the expected and actual FAIL_TO_PASS sets are equal, the expected
and actual PASS_TO_PASS sets are equal, and the report's `resolved` value
is truthy; in every other case it classifies `test_mismatch`. -/
theorem c1_classification_conjunctive
    (dp : PyVal) (logs_dir : String) (reports : String → Option String)
    (iid : String) (ftpv ptpv Eftp Eptp : PyVal) (content : String) (report : PyVal)
    (inst ts f1 aftp p1 aptp resolved : PyVal)
    (sE1 sA1 sE2 sA2 : Finset PyVal)
    (h1 : pyIndex dp "instance_id" = .ok (vStr iid))
    (h2 : pyIndex dp "FAIL_TO_PASS" = .ok ftpv)
    (h3 : jsonLoads ftpv = .ok Eftp)
    (h4 : pyIndex dp "PASS_TO_PASS" = .ok ptpv)
    (h5 : jsonLoads ptpv = .ok Eptp)
    (h6 : reports (report_path logs_dir iid) = some content)
    (h7 : jsonParse content = .ok report)
    (h8 : pyGet report iid (vDict []) = .ok inst)
    (h9 : pyGet inst "tests_status" (vDict []) = .ok ts)
    (h10 : pyGet ts "FAIL_TO_PASS" (vDict []) = .ok f1)
    (h11 : pyGet f1 "success" (vList []) = .ok aftp)
    (h12 : pyGet ts "PASS_TO_PASS" (vDict []) = .ok p1)
    (h13 : pyGet p1 "success" (vList []) = .ok aptp)
    (h14 : pySet Eftp = .ok sE1) (h15 : pySet aftp = .ok sA1)
    (h16 : pySet Eptp = .ok sE2) (h17 : pySet aptp = .ok sA2)
    (h18 : pyGet inst "resolved" (vBool false) = .ok resolved) :
    ∃ st : String,
      validate_single_result dp logs_dir reports =
        .ok (VRes.classified st resolved (decide (sE1 = sA1)) (decide (sE2 = sA2))
              Eftp aftp Eptp aptp) ∧
      (st = "success" ∨ st = "test_mismatch") ∧
      (st = "success" ↔ (sE1 = sA1 ∧ sE2 = sA2 ∧ pyTruthy resolved = true)) := by
  unfold validate_single_result
  rw [h1, except_bind_ok, h2, except_bind_ok, h3, except_bind_ok,
      h4, except_bind_ok, h5, except_bind_ok]
  rw [show pyPathSeg (vStr iid) = .ok iid from rfl, except_bind_ok]
  rw [h6]
  try dsimp only
  rw [h7, except_bind_ok]
  unfold compare_report
  rw [h8, except_bind_ok, h9, except_bind_ok, h10, except_bind_ok,
      h11, except_bind_ok, h12, except_bind_ok, h13, except_bind_ok,
      h14, except_bind_ok, h15, except_bind_ok, h16, except_bind_ok,
      h17, except_bind_ok, h18, except_bind_ok]
  refine ⟨_, rfl, ?_, ?_⟩
  · by_cases hc : (decide (sE1 = sA1) && decide (sE2 = sA2) && pyTruthy resolved) = true
    · left; simp [hc]
    · right; simp [hc]
  · by_cases hc : (decide (sE1 = sA1) && decide (sE2 = sA2) && pyTruthy resolved) = true
    · simp only [hc, if_true]
      simp only [Bool.and_eq_true, decide_eq_true_eq] at hc
      simp [hc]
    · simp only [hc, if_false]
      constructor
      · intro h; exact absurd h (by decide)
      · rintro ⟨ha, hb, hcc⟩
        exact absurd (by simp [ha, hb, hcc]) hc

theorem c1_classification_conjunctive_witness :
    ∃ st : String,
      validate_single_result
        (vDict [("instance_id", vStr "foo"), ("repo", vStr "r"), ("base_commit", vStr "c"),
                ("patch", vStr "fix"), ("FAIL_TO_PASS", vStr "[\"t1\"]"),
                ("PASS_TO_PASS", vStr "[]")])
        "logs/run_evaluation/ok/gpt-4"
        (fun p => if p = "logs/run_evaluation/ok/gpt-4/foo/report.json"
          then some "\x7b\"foo\": \x7b\"resolved\": true, \"tests_status\": \x7b\"FAIL_TO_PASS\": \x7b\"success\": [\"t1\"]\x7d, \"PASS_TO_PASS\": \x7b\"success\": []\x7d\x7d\x7d\x7d"
          else none) =
        .ok (VRes.classified st (vBool true)
              (decide (([vStr "t1"] : List PyVal).toFinset = ([vStr "t1"] : List PyVal).toFinset))
              (decide (([] : List PyVal).toFinset = ([] : List PyVal).toFinset))
              (vList [vStr "t1"]) (vList [vStr "t1"]) (vList []) (vList [])) ∧
      (st = "success" ∨ st = "test_mismatch") ∧
      (st = "success" ↔ (([vStr "t1"] : List PyVal).toFinset = ([vStr "t1"] : List PyVal).toFinset ∧
        ([] : List PyVal).toFinset = ([] : List PyVal).toFinset ∧ pyTruthy (vBool true) = true)) :=
  c1_classification_conjunctive
    (vDict [("instance_id", vStr "foo"), ("repo", vStr "r"), ("base_commit", vStr "c"),
            ("patch", vStr "fix"), ("FAIL_TO_PASS", vStr "[\"t1\"]"),
            ("PASS_TO_PASS", vStr "[]")])
    "logs/run_evaluation/ok/gpt-4"
    (fun p => if p = "logs/run_evaluation/ok/gpt-4/foo/report.json"
      then some "\x7b\"foo\": \x7b\"resolved\": true, \"tests_status\": \x7b\"FAIL_TO_PASS\": \x7b\"success\": [\"t1\"]\x7d, \"PASS_TO_PASS\": \x7b\"success\": []\x7d\x7d\x7d\x7d"
      else none)
    "foo" (vStr "[\"t1\"]") (vStr "[]") (vList [vStr "t1"]) (vList [])
    "\x7b\"foo\": \x7b\"resolved\": true, \"tests_status\": \x7b\"FAIL_TO_PASS\": \x7b\"success\": [\"t1\"]\x7d, \"PASS_TO_PASS\": \x7b\"success\": []\x7d\x7d\x7d\x7d"
    (vDict [("foo", vDict [("resolved", vBool true), ("tests_status",
      vDict [("FAIL_TO_PASS", vDict [("success", vList [vStr "t1"])]),
             ("PASS_TO_PASS", vDict [("success", vList [])])])])])
    (vDict [("resolved", vBool true), ("tests_status",
      vDict [("FAIL_TO_PASS", vDict [("success", vList [vStr "t1"])]),
             ("PASS_TO_PASS", vDict [("success", vList [])])])])
    (vDict [("FAIL_TO_PASS", vDict [("success", vList [vStr "t1"])]),
            ("PASS_TO_PASS", vDict [("success", vList [])])])
    (vDict [("success", vList [vStr "t1"])]) (vList [vStr "t1"])
    (vDict [("success", vList [])]) (vList [])
    (vBool true)
    (([vStr "t1"] : List PyVal).toFinset) (([vStr "t1"] : List PyVal).toFinset)
    (([] : List PyVal).toFinset) (([] : List PyVal).toFinset)
    (by decide) (by decide) (by decide) (by decide) (by decide)
    (by decide) (by decide) (by decide) (by decide) (by decide)
    (by decide) (by decide) (by decide) (by decide) (by decide)
    (by decide) (by decide) (by decide)

/-- C3: for a data point whose embedded test lists deserialize, a missing
report artifact yields exactly the `report_not_found` outcome without
raising, and an existing artifact that fails to deserialize yields
exactly the `read_error` outcome carrying the error text; the respective
status strings are `report_not_found` and `read_error` and nothing else. -/
theorem c3_report_missing_and_unreadable
    (dp : PyVal) (logs_dir : String) (reports : String → Option String)
    (iid : String) (ftpv ptpv Eftp Eptp : PyVal)
    (h1 : pyIndex dp "instance_id" = .ok (vStr iid))
    (h2 : pyIndex dp "FAIL_TO_PASS" = .ok ftpv)
    (h3 : jsonLoads ftpv = .ok Eftp)
    (h4 : pyIndex dp "PASS_TO_PASS" = .ok ptpv)
    (h5 : jsonLoads ptpv = .ok Eptp) :
    (reports (report_path logs_dir iid) = none →
      validate_single_result dp logs_dir reports =
        .ok (VRes.report_not_found
              ("File " ++ report_path logs_dir iid ++ " not found")) ∧
      ∀ v, validate_single_result dp logs_dir reports = .ok v →
        v.status = "report_not_found") ∧
    (∀ content e, reports (report_path logs_dir iid) = some content →
      jsonParse content = .error e →
      validate_single_result dp logs_dir reports = .ok (VRes.read_error e) ∧
      ∀ v, validate_single_result dp logs_dir reports = .ok v →
        v.status = "read_error") := by
  constructor
  · intro h6
    have heq : validate_single_result dp logs_dir reports =
        .ok (VRes.report_not_found ("File " ++ report_path logs_dir iid ++ " not found")) := by
      unfold validate_single_result
      rw [h1, except_bind_ok, h2, except_bind_ok, h3, except_bind_ok,
          h4, except_bind_ok, h5, except_bind_ok]
      rw [show pyPathSeg (vStr iid) = .ok iid from rfl, except_bind_ok]
      rw [h6]
    refine ⟨heq, ?_⟩
    intro v hv
    rw [heq] at hv
    cases hv
    rfl
  · intro content e h6 h7
    have heq : validate_single_result dp logs_dir reports = .ok (VRes.read_error e) := by
      unfold validate_single_result
      rw [h1, except_bind_ok, h2, except_bind_ok, h3, except_bind_ok,
          h4, except_bind_ok, h5, except_bind_ok]
      rw [show pyPathSeg (vStr iid) = .ok iid from rfl, except_bind_ok]
      rw [h6]
      try dsimp only
      rw [h7, except_bind_error]
    refine ⟨heq, ?_⟩
    intro v hv
    rw [heq] at hv
    cases hv
    rfl

theorem c3_report_missing_and_unreadable_witness :
    ((fun _ => (none : Option String)) ("logs/run_evaluation/ok/gpt-4/foo/report.json") = none →
      validate_single_result
        (vDict [("instance_id", vStr "foo"), ("repo", vStr "r"), ("base_commit", vStr "c"),
                ("patch", vStr "fix"), ("FAIL_TO_PASS", vStr "[\"t1\"]"),
                ("PASS_TO_PASS", vStr "[]")])
        "logs/run_evaluation/ok/gpt-4" (fun _ => none) =
        .ok (VRes.report_not_found
              ("File " ++ report_path "logs/run_evaluation/ok/gpt-4" "foo" ++ " not found")) ∧
      ∀ v, validate_single_result
        (vDict [("instance_id", vStr "foo"), ("repo", vStr "r"), ("base_commit", vStr "c"),
                ("patch", vStr "fix"), ("FAIL_TO_PASS", vStr "[\"t1\"]"),
                ("PASS_TO_PASS", vStr "[]")])
        "logs/run_evaluation/ok/gpt-4" (fun _ => none) = .ok v →
        v.status = "report_not_found") ∧
    (∀ content e, (fun _ => (none : Option String)) (report_path "logs/run_evaluation/ok/gpt-4" "foo") = some content →
      jsonParse content = .error e →
      validate_single_result
        (vDict [("instance_id", vStr "foo"), ("repo", vStr "r"), ("base_commit", vStr "c"),
                ("patch", vStr "fix"), ("FAIL_TO_PASS", vStr "[\"t1\"]"),
                ("PASS_TO_PASS", vStr "[]")])
        "logs/run_evaluation/ok/gpt-4" (fun _ => none) = .ok (VRes.read_error e) ∧
      ∀ v, validate_single_result
        (vDict [("instance_id", vStr "foo"), ("repo", vStr "r"), ("base_commit", vStr "c"),
                ("patch", vStr "fix"), ("FAIL_TO_PASS", vStr "[\"t1\"]"),
                ("PASS_TO_PASS", vStr "[]")])
        "logs/run_evaluation/ok/gpt-4" (fun _ => none) = .ok v →
        v.status = "read_error") :=
  c3_report_missing_and_unreadable
    (vDict [("instance_id", vStr "foo"), ("repo", vStr "r"), ("base_commit", vStr "c"),
            ("patch", vStr "fix"), ("FAIL_TO_PASS", vStr "[\"t1\"]"),
            ("PASS_TO_PASS", vStr "[]")])
    "logs/run_evaluation/ok/gpt-4" (fun _ => none)
    "foo" (vStr "[\"t1\"]") (vStr "[]") (vList [vStr "t1"]) (vList [])
    (by decide) (by decide) (by decide) (by decide) (by decide)

/-- C2 (code bug): a record with all six fields, a non-empty patch, and
both test-id lists equal to the JSON encoding of the empty list (the
string "[]") is claimed to be excluded by the loader; the embedded code
keeps it, because `_validate_data_point` tests Python truthiness of the
field values and "[]" is a non-empty, hence truthy, string.  Both fields
deserialize to the empty list, validation nevertheless returns `True`,
and the single-file load returns the record. -/
theorem c2_empty_test_lists_record_kept :
    jsonLoads (vStr "[]") = .ok (vList []) ∧
    validate_data_point
      (vDict [("instance_id", vStr "i"), ("repo", vStr "r"), ("base_commit", vStr "c"),
              ("patch", vStr "fix"), ("FAIL_TO_PASS", vStr "[]"),
              ("PASS_TO_PASS", vStr "[]")]) = .ok true ∧
    load_single_data_point
      "\x7b\"instance_id\": \"i\", \"repo\": \"r\", \"base_commit\": \"c\", \"patch\": \"fix\", \"FAIL_TO_PASS\": \"[]\", \"PASS_TO_PASS\": \"[]\"\x7d" =
      some (vDict [("instance_id", vStr "i"), ("repo", vStr "r"), ("base_commit", vStr "c"),
              ("patch", vStr "fix"), ("FAIL_TO_PASS", vStr "[]"),
              ("PASS_TO_PASS", vStr "[]")]) ∧
    load_data_points_by_files true
      [("dp.json", "\x7b\"instance_id\": \"i\", \"repo\": \"r\", \"base_commit\": \"c\", \"patch\": \"fix\", \"FAIL_TO_PASS\": \"[]\", \"PASS_TO_PASS\": \"[]\"\x7d")]
      (some ["dp"]) =
      [vDict [("instance_id", vStr "i"), ("repo", vStr "r"), ("base_commit", vStr "c"),
              ("patch", vStr "fix"), ("FAIL_TO_PASS", vStr "[]"),
              ("PASS_TO_PASS", vStr "[]")]] := by decide

theorem pySet_strList (l : List String) :
    pySet (vList (l.map vStr)) = .ok ((l.map vStr).toFinset) := by
  unfold pySet
  try dsimp only
  rw [if_pos]
  simp [List.all_eq_true, hashablePy]

theorem map_vStr_toFinset (l : List String) :
    (l.map vStr).toFinset = l.toFinset.image vStr := by
  induction l with
  | nil => simp
  | cons x xs ih => simp [ih]

theorem vStr_injective : Function.Injective vStr := by
  intro a b h
  injection h

theorem map_vStr_toFinset_eq_iff (l1 a1 : List String) :
    ((l1.map vStr).toFinset = (a1.map vStr).toFinset) ↔ (l1.toFinset = a1.toFinset) := by
  rw [map_vStr_toFinset, map_vStr_toFinset]
  exact (Finset.image_injective vStr_injective).eq_iff

/-- C7: in the COMPARE step the actual test-id lists come from the
`success` sub-lists under the `FAIL_TO_PASS`/`PASS_TO_PASS` keys of the
instance's `tests_status` mapping, a missing key defaulting to the empty
list rather than an error, and each category's expected-vs-actual
comparison is set equality: insensitive to order and to duplicate test
identifiers on either side. -/
theorem c7_defaults_and_set_equality :
    (∀ (ts : List (String × PyVal)) (k : String), ts.lookup k = none →
      (pyGet (vDict ts) k (vDict []) >>= fun e => pyGet e "success" (vList [])) =
        .ok (vList [])) ∧
    (∀ (entry : List (String × PyVal)), entry.lookup "success" = none →
      pyGet (vDict entry) "success" (vList []) = .ok (vList [])) ∧
    (∀ (iid : String) (resolved : PyVal) (l1 l2 a1 a2 : List String),
      compare_report (vList (l1.map vStr)) (vList (l2.map vStr)) iid
        (vDict [(iid, vDict [("tests_status",
            vDict [("FAIL_TO_PASS", vDict [("success", vList (a1.map vStr))]),
                   ("PASS_TO_PASS", vDict [("success", vList (a2.map vStr))])]),
          ("resolved", resolved)])]) =
        .ok (VRes.classified
          (if decide (l1.toFinset = a1.toFinset) && decide (l2.toFinset = a2.toFinset) &&
              pyTruthy resolved then "success" else "test_mismatch")
          resolved (decide (l1.toFinset = a1.toFinset)) (decide (l2.toFinset = a2.toFinset))
          (vList (l1.map vStr)) (vList (a1.map vStr))
          (vList (l2.map vStr)) (vList (a2.map vStr)))) ∧
    (∀ (l1 l1' a1 : List String), l1.Perm l1' →
      decide (l1.toFinset = a1.toFinset) = decide (l1'.toFinset = a1.toFinset)) ∧
    (∀ (x : String) (l1 a1 : List String),
      decide (((x :: x :: l1).toFinset : Finset String) = a1.toFinset) =
        decide (((x :: l1).toFinset : Finset String) = a1.toFinset)) := by
  refine ⟨?_, ?_, ?_, ?_, ?_⟩
  · intro ts k h
    rw [show pyGet (vDict ts) k (vDict []) = .ok ((ts.lookup k).getD (vDict [])) from rfl]
    rw [h, except_bind_ok]
    rfl
  · intro entry h
    rw [show pyGet (vDict entry) "success" (vList []) =
        .ok ((entry.lookup "success").getD (vList [])) from rfl]
    rw [h]
    rfl
  · intro iid resolved l1 l2 a1 a2
    unfold compare_report
    rw [show pyGet (vDict [(iid, vDict [("tests_status",
          vDict [("FAIL_TO_PASS", vDict [("success", vList (a1.map vStr))]),
                 ("PASS_TO_PASS", vDict [("success", vList (a2.map vStr))])]),
        ("resolved", resolved)])]) iid (vDict []) =
        .ok (vDict [("tests_status",
          vDict [("FAIL_TO_PASS", vDict [("success", vList (a1.map vStr))]),
                 ("PASS_TO_PASS", vDict [("success", vList (a2.map vStr))])]),
        ("resolved", resolved)]) by
      simp [pyGet, List.lookup]]
    rw [except_bind_ok]
    rw [show pyGet (vDict [("tests_status",
          vDict [("FAIL_TO_PASS", vDict [("success", vList (a1.map vStr))]),
                 ("PASS_TO_PASS", vDict [("success", vList (a2.map vStr))])]),
        ("resolved", resolved)]) "tests_status" (vDict []) =
        .ok (vDict [("FAIL_TO_PASS", vDict [("success", vList (a1.map vStr))]),
                    ("PASS_TO_PASS", vDict [("success", vList (a2.map vStr))])]) by
      simp [pyGet, List.lookup]]
    rw [except_bind_ok]
    rw [show pyGet (vDict [("FAIL_TO_PASS", vDict [("success", vList (a1.map vStr))]),
                           ("PASS_TO_PASS", vDict [("success", vList (a2.map vStr))])])
          "FAIL_TO_PASS" (vDict []) =
        .ok (vDict [("success", vList (a1.map vStr))]) by simp [pyGet, List.lookup]]
    rw [except_bind_ok]
    rw [show pyGet (vDict [("success", vList (a1.map vStr))]) "success" (vList []) =
        .ok (vList (a1.map vStr)) by simp [pyGet, List.lookup]]
    rw [except_bind_ok]
    rw [show pyGet (vDict [("FAIL_TO_PASS", vDict [("success", vList (a1.map vStr))]),
                           ("PASS_TO_PASS", vDict [("success", vList (a2.map vStr))])])
          "PASS_TO_PASS" (vDict []) =
        .ok (vDict [("success", vList (a2.map vStr))]) by simp [pyGet, List.lookup]]
    rw [except_bind_ok]
    rw [show pyGet (vDict [("success", vList (a2.map vStr))]) "success" (vList []) =
        .ok (vList (a2.map vStr)) by simp [pyGet, List.lookup]]
    rw [except_bind_ok]
    rw [pySet_strList l1, except_bind_ok, pySet_strList a1, except_bind_ok,
        pySet_strList l2, except_bind_ok, pySet_strList a2, except_bind_ok]
    rw [show pyGet (vDict [("tests_status",
          vDict [("FAIL_TO_PASS", vDict [("success", vList (a1.map vStr))]),
                 ("PASS_TO_PASS", vDict [("success", vList (a2.map vStr))])]),
        ("resolved", resolved)]) "resolved" (vBool false) = .ok resolved by
      simp [pyGet, List.lookup]]
    rw [except_bind_ok]
    rw [show (decide ((l1.map vStr).toFinset = (a1.map vStr).toFinset)) =
        (decide (l1.toFinset = a1.toFinset)) from
      decide_eq_decide.mpr (map_vStr_toFinset_eq_iff l1 a1)]
    rw [show (decide ((l2.map vStr).toFinset = (a2.map vStr).toFinset)) =
        (decide (l2.toFinset = a2.toFinset)) from
      decide_eq_decide.mpr (map_vStr_toFinset_eq_iff l2 a2)]
  · intro l1 l1' a1 hperm
    rw [List.toFinset_eq_of_perm l1 l1' hperm]
  · intro x l1 a1
    simp only [List.toFinset_cons, Finset.insert_idem]

theorem c7_defaults_and_set_equality_witness :
    ([("PASS_TO_PASS", vStr "x")] : List (String × PyVal)).lookup "FAIL_TO_PASS" = none ∧
    (pyGet (vDict [("PASS_TO_PASS", vStr "x")]) "FAIL_TO_PASS" (vDict []) >>=
      fun e => pyGet e "success" (vList [])) = .ok (vList []) ∧
    ([("t1", "t2")] : List (String × String)) = [("t1", "t2")] ∧
    List.Perm ["t1", "t2"] ["t2", "t1"] ∧
    decide ((["t1", "t2"] : List String).toFinset = (["t2", "t1"] : List String).toFinset) =
      decide ((["t2", "t1"] : List String).toFinset = (["t2", "t1"] : List String).toFinset) :=
  ⟨by decide,
   c7_defaults_and_set_equality.1 [("PASS_TO_PASS", vStr "x")] "FAIL_TO_PASS" (by decide),
   rfl,
   by decide,
   c7_defaults_and_set_equality.2.2.2.1 ["t1", "t2"] ["t2", "t1"] ["t2", "t1"] (by decide)⟩

/-- C8: when a loaded data point's FAIL_TO_PASS or PASS_TO_PASS field is
not a string containing valid JSON, the COMPARE step raises before the
report artifact is looked up (its outcome is an exception and is
independent of the report oracle), the exception is caught at the file
level, and the file's result is a pipeline failure — `success := false`
with the raw error text and no classification outcome. -/
theorem c8_bad_test_list_fields_fail_pipeline
    (dp : PyVal) (logs_dir : String) (iidv ftpv : PyVal) (e : String)
    (h1 : pyIndex dp "instance_id" = .ok iidv)
    (h2 : pyIndex dp "FAIL_TO_PASS" = .ok ftpv) :
    (jsonLoads ftpv = .error e →
      ∀ reports reports' : String → Option String,
        validate_single_result dp logs_dir reports = .error e ∧
        validate_single_result dp logs_dir reports =
          validate_single_result dp logs_dir reports') ∧
    (∀ (Eftp ptpv : PyVal), jsonLoads ftpv = .ok Eftp →
      pyIndex dp "PASS_TO_PASS" = .ok ptpv →
      jsonLoads ptpv = .error e →
      ∀ reports reports' : String → Option String,
        validate_single_result dp logs_dir reports = .error e ∧
        validate_single_result dp logs_dir reports =
          validate_single_result dp logs_dir reports') ∧
    (∀ (env : Env) (name : String) (err : String),
      validate_single_file_body env name = .error err →
      validate_single_file env name =
        { success := false, error := some err, instance_id := none,
          run_id := none, validation_result := none }) := by
  refine ⟨?_, ?_, ?_⟩
  · intro h3 reports reports'
    have heq : ∀ rs : String → Option String,
        validate_single_result dp logs_dir rs = .error e := by
      intro rs
      unfold validate_single_result
      rw [h1, except_bind_ok, h2, except_bind_ok, h3, except_bind_error]
    exact ⟨heq reports, by rw [heq reports, heq reports']⟩
  · intro Eftp ptpv h3 h4 h5 reports reports'
    have heq : ∀ rs : String → Option String,
        validate_single_result dp logs_dir rs = .error e := by
      intro rs
      unfold validate_single_result
      rw [h1, except_bind_ok, h2, except_bind_ok, h3, except_bind_ok,
          h4, except_bind_ok, h5, except_bind_error]
    exact ⟨heq reports, by rw [heq reports, heq reports']⟩
  · intro env name err hbody
    unfold validate_single_file
    rw [hbody]

theorem c8_bad_test_list_fields_fail_pipeline_witness :
    validate_single_result
      (vDict [("instance_id", vStr "i"), ("repo", vStr "r"), ("base_commit", vStr "c"),
              ("patch", vStr "fix"), ("FAIL_TO_PASS", vList [vStr "t"]),
              ("PASS_TO_PASS", vStr "[]")])
      "logs/run_evaluation/f/gpt-4" (fun _ => none) =
      .error "TypeError: the JSON object must be str, bytes or bytearray" ∧
    validate_single_file
      { dirExists := true
        dataFiles := [("f.json", "\x7b\"instance_id\": \"i\", \"repo\": \"r\", \"base_commit\": \"c\", \"patch\": \"fix\", \"FAIL_TO_PASS\": [\"t\"], \"PASS_TO_PASS\": \"[]\"\x7d")]
        saveOk := fun _ => true
        docker := fun _ _ => .exited 0
        reports := fun _ => none } "f" =
      { success := false,
        error := some "TypeError: the JSON object must be str, bytes or bytearray",
        instance_id := none, run_id := none, validation_result := none } :=
  ⟨((c8_bad_test_list_fields_fail_pipeline
      (vDict [("instance_id", vStr "i"), ("repo", vStr "r"), ("base_commit", vStr "c"),
              ("patch", vStr "fix"), ("FAIL_TO_PASS", vList [vStr "t"]),
              ("PASS_TO_PASS", vStr "[]")])
      "logs/run_evaluation/f/gpt-4" (vStr "i") (vList [vStr "t"])
      "TypeError: the JSON object must be str, bytes or bytearray"
      (by decide) (by decide)).1 (by decide) (fun _ => none) (fun _ => none)).1,
   (c8_bad_test_list_fields_fail_pipeline
      (vDict [("instance_id", vStr "i"), ("repo", vStr "r"), ("base_commit", vStr "c"),
              ("patch", vStr "fix"), ("FAIL_TO_PASS", vList [vStr "t"]),
              ("PASS_TO_PASS", vStr "[]")])
      "logs/run_evaluation/f/gpt-4" (vStr "i") (vList [vStr "t"])
      "TypeError: the JSON object must be str, bytes or bytearray"
      (by decide) (by decide)).2.2
      { dirExists := true
        dataFiles := [("f.json", "\x7b\"instance_id\": \"i\", \"repo\": \"r\", \"base_commit\": \"c\", \"patch\": \"fix\", \"FAIL_TO_PASS\": [\"t\"], \"PASS_TO_PASS\": \"[]\"\x7d")]
        saveOk := fun _ => true
        docker := fun _ _ => .exited 0
        reports := fun _ => none } "f"
      "TypeError: the JSON object must be str, bytes or bytearray"
      (by decide)⟩

/-- C9: the loader's batch call is total over file contents: every
exception of the single-file body — including the `AttributeError` the
validation itself raises when the patch field is present but not a
string — is caught inside the single-file loader, the record is dropped,
and the batch call splits around the dropped file with the sibling files
processed exactly as they would be alone. -/
theorem c9_loader_total_over_contents
    (contents : String) (dp p : PyVal) (e : String)
    (h1 : jsonParse contents = .ok dp)
    (h2 : checkFields required_fields dp = .ok true)
    (h3 : pyGet dp "patch" (vStr "") = .ok p)
    (h4 : pyStrip p = .error e) :
    validate_data_point dp = .error e ∧
    load_single_data_point_body contents = .error e ∧
    load_single_data_point contents = none ∧
    (∀ (files : List (String × String)) (pre post : List String) (fn fname : String),
      resolve_file_names files [fn] = [fname] →
      files.lookup fname = some contents →
      load_data_points_by_files true files (some (pre ++ fn :: post)) =
        load_data_points_by_files true files (some pre) ++
          load_data_points_by_files true files (some post)) := by
  have hval : validate_data_point dp = .error e := by
    unfold validate_data_point
    rw [h2, except_bind_ok]
    simp only [Bool.not_true, Bool.false_eq_true, if_false]
    rw [h3, except_bind_ok, h4, except_bind_error]
  have hbody : load_single_data_point_body contents = .error e := by
    unfold load_single_data_point_body
    rw [h1, except_bind_ok, hval, except_bind_error]
  have hnone : load_single_data_point contents = none := by
    unfold load_single_data_point
    rw [hbody]
  refine ⟨hval, hbody, hnone, ?_⟩
  intro files pre post fn fname hres hlook
  unfold load_data_points_by_files
  simp only [Bool.not_true, Bool.false_eq_true, if_false]
  rw [show (pre ++ fn :: post) = ((pre ++ [fn]) ++ post) by simp]
  rw [show ∀ a b : List String, resolve_file_names files (a ++ b) =
        resolve_file_names files a ++ resolve_file_names files b from
      fun a b => List.filterMap_append a b _]
  rw [show ∀ a b : List String, resolve_file_names files (a ++ b) =
        resolve_file_names files a ++ resolve_file_names files b from
      fun a b => List.filterMap_append a b _]
  rw [hres]
  rw [List.filterMap_append, List.filterMap_append]
  rw [show List.filterMap (fun jf => (files.lookup jf).bind load_single_data_point) [fname] =
      [] by simp [List.filterMap, hlook, hnone]]
  simp

theorem c9_loader_total_over_contents_witness :
    validate_data_point
      (vDict [("instance_id", vStr "i"), ("repo", vStr "r"), ("base_commit", vStr "c"),
              ("patch", vInt 5), ("FAIL_TO_PASS", vStr "[\"t\"]"),
              ("PASS_TO_PASS", vStr "[]")]) =
      .error "AttributeError: object has no attribute strip" ∧
    load_single_data_point_body
      "\x7b\"instance_id\": \"i\", \"repo\": \"r\", \"base_commit\": \"c\", \"patch\": 5, \"FAIL_TO_PASS\": \"[\\\"t\\\"]\", \"PASS_TO_PASS\": \"[]\"\x7d" =
      .error "AttributeError: object has no attribute strip" ∧
    load_single_data_point
      "\x7b\"instance_id\": \"i\", \"repo\": \"r\", \"base_commit\": \"c\", \"patch\": 5, \"FAIL_TO_PASS\": \"[\\\"t\\\"]\", \"PASS_TO_PASS\": \"[]\"\x7d" =
      none ∧
    (∀ (files : List (String × String)) (pre post : List String) (fn fname : String),
      resolve_file_names files [fn] = [fname] →
      files.lookup fname = some
        "\x7b\"instance_id\": \"i\", \"repo\": \"r\", \"base_commit\": \"c\", \"patch\": 5, \"FAIL_TO_PASS\": \"[\\\"t\\\"]\", \"PASS_TO_PASS\": \"[]\"\x7d" →
      load_data_points_by_files true files (some (pre ++ fn :: post)) =
        load_data_points_by_files true files (some pre) ++
          load_data_points_by_files true files (some post)) :=
  c9_loader_total_over_contents
    "\x7b\"instance_id\": \"i\", \"repo\": \"r\", \"base_commit\": \"c\", \"patch\": 5, \"FAIL_TO_PASS\": \"[\\\"t\\\"]\", \"PASS_TO_PASS\": \"[]\"\x7d"
    (vDict [("instance_id", vStr "i"), ("repo", vStr "r"), ("base_commit", vStr "c"),
            ("patch", vInt 5), ("FAIL_TO_PASS", vStr "[\"t\"]"),
            ("PASS_TO_PASS", vStr "[]")])
    (vInt 5) "AttributeError: object has no attribute strip"
    (by decide) (by decide) (by decide) (by decide)

theorem convert_single_shape (mn : String) (dp pr : PyVal)
    (h : convert_single_data_point mn dp = .ok (some pr)) :
    ∃ iid patch : PyVal,
      pr = vDict [("instance_id", iid), ("model_name_or_path", vStr mn),
                  ("model_patch", patch)] ∧
      pyTruthy iid = true ∧ pyTruthy patch = true := by
  unfold convert_single_data_point at h
  cases hg1 : pyGet dp "instance_id" vNone with
  | error e => rw [hg1, except_bind_error] at h; cases h
  | ok iid =>
    rw [hg1, except_bind_ok] at h
    cases hg2 : pyGet dp "patch" vNone with
    | error e => rw [hg2, except_bind_error] at h; cases h
    | ok patch =>
      rw [hg2, except_bind_ok] at h
      by_cases ht : (!pyTruthy iid || !pyTruthy patch) = true
      · rw [if_pos ht] at h
        simp at h
      · rw [if_neg ht] at h
        simp only [Except.ok.injEq, Option.some.injEq] at h
        simp only [Bool.or_eq_true, Bool.not_eq_true'] at ht
        push_neg at ht
        exact ⟨iid, patch, h.symm,
          by simp [Bool.not_eq_false] at ht; exact ht.1,
          by simp [Bool.not_eq_false] at ht; exact ht.2⟩

/-- C10: a successful batch conversion returns exactly the predictions of
the convertible entries in input order, and every returned prediction is
the three-field dictionary `instance_id`/`model_name_or_path`/`model_patch`
with `model_name_or_path` equal to the formatter's fixed model name. -/
theorem c10_convert_shape_and_order (mn : String) (dps ps : List PyVal)
    (h : convert_to_predictions mn dps = .ok ps) :
    ps = dps.filterMap (convert_pure mn) ∧
    ∀ p ∈ ps, ∃ iid patch : PyVal,
      p = vDict [("instance_id", iid), ("model_name_or_path", vStr mn),
                 ("model_patch", patch)] ∧
      pyTruthy iid = true ∧ pyTruthy patch = true := by
  induction dps generalizing ps with
  | nil =>
    simp only [convert_to_predictions] at h
    cases h
    exact ⟨rfl, by intro p hp; cases hp⟩
  | cons dp rest ih =>
    simp only [convert_to_predictions] at h
    cases hc : convert_single_data_point mn dp with
    | error e => rw [hc, except_bind_error] at h; cases h
    | ok r =>
      rw [hc, except_bind_ok] at h
      cases hr : convert_to_predictions mn rest with
      | error e => rw [hr, except_bind_error] at h; cases h
      | ok l =>
        rw [hr, except_bind_ok] at h
        obtain ⟨hl, hshape⟩ := ih l hr
        have hpure : convert_pure mn dp = r := by unfold convert_pure; rw [hc]
        cases r with
        | some pr =>
          simp only [Except.ok.injEq] at h
          subst h
          refine ⟨?_, ?_⟩
          · rw [List.filterMap_cons, hpure]
            rw [hl]
          · intro p hp
            cases hp with
            | head => exact convert_single_shape mn dp pr hc
            | tail _ hmem => exact hshape p hmem
        | none =>
          simp only [Except.ok.injEq] at h
          subst h
          refine ⟨?_, ?_⟩
          · rw [List.filterMap_cons, hpure, hl]
          · intro p hp
            exact hshape p hp

theorem c10_convert_shape_and_order_witness :
    ([vDict [("instance_id", vStr "a"), ("model_name_or_path", vStr "gpt-4"),
             ("model_patch", vStr "p1")],
      vDict [("instance_id", vStr "b"), ("model_name_or_path", vStr "gpt-4"),
             ("model_patch", vStr "p2")]] : List PyVal) =
      ([vDict [("instance_id", vStr "a"), ("repo", vStr "r1"), ("patch", vStr "p1")],
        vDict [("instance_id", vStr ""), ("patch", vStr "skip")],
        vDict [("instance_id", vStr "b"), ("patch", vStr "p2")]].filterMap
          (convert_pure "gpt-4")) ∧
    ∀ p ∈ ([vDict [("instance_id", vStr "a"), ("model_name_or_path", vStr "gpt-4"),
              ("model_patch", vStr "p1")],
            vDict [("instance_id", vStr "b"), ("model_name_or_path", vStr "gpt-4"),
              ("model_patch", vStr "p2")]] : List PyVal), ∃ iid patch : PyVal,
      p = vDict [("instance_id", iid), ("model_name_or_path", vStr "gpt-4"),
                 ("model_patch", patch)] ∧
      pyTruthy iid = true ∧ pyTruthy patch = true :=
  c10_convert_shape_and_order "gpt-4"
    [vDict [("instance_id", vStr "a"), ("repo", vStr "r1"), ("patch", vStr "p1")],
     vDict [("instance_id", vStr ""), ("patch", vStr "skip")],
     vDict [("instance_id", vStr "b"), ("patch", vStr "p2")]]
    [vDict [("instance_id", vStr "a"), ("model_name_or_path", vStr "gpt-4"),
            ("model_patch", vStr "p1")],
     vDict [("instance_id", vStr "b"), ("model_name_or_path", vStr "gpt-4"),
            ("model_patch", vStr "p2")]]
    (by decide)

theorem filter_split_length {α : Type} (p : α → Bool) (l : List α) :
    (l.filter p).length + (l.filter (fun a => !p a)).length = l.length := by
  induction l with
  | nil => simp
  | cons x xs ih =>
    by_cases hx : p x = true
    · simp [List.filter_cons, hx]; omega
    · simp only [Bool.not_eq_true] at hx
      simp [List.filter_cons, hx]
      omega

theorem validate_foldl_counts (env : Env) (names : List String) :
    ∀ acc : Nat × Nat × List (String × FileResult),
      names.foldl (fun (acc : Nat × Nat × List (String × FileResult)) (n : String) =>
        let fr := validate_single_file env n
        (acc.1 + (if counts_success fr then 1 else 0),
         acc.2.1 + (if counts_success fr then 0 else 1),
         acc.2.2 ++ [(n, fr)])) acc =
      (acc.1 + (names.filter (fun n => counts_success (validate_single_file env n))).length,
       acc.2.1 + (names.filter (fun n => !counts_success (validate_single_file env n))).length,
       acc.2.2 ++ names.map (fun n => (n, validate_single_file env n))) := by
  induction names with
  | nil => intro acc; simp
  | cons n rest ih =>
    intro acc
    rw [List.foldl_cons, ih]
    by_cases hn : counts_success (validate_single_file env n) = true
    · simp only [hn, if_true, List.filter_cons, List.map_cons, Bool.not_true]
      simp [hn]
      omega
    · simp only [Bool.not_eq_true] at hn
      simp only [hn, List.filter_cons, List.map_cons, Bool.not_false]
      simp [hn]
      omega

/-- C4: for a non-empty batch of target names, a file counts as successful
exactly when its pipeline result reports success and its nested
comparison status is exactly `success`; the aggregate reports that count,
the complement as failed (the two summing to the total), the per-file
results in order, and a success rate of successful/total × 100; an empty
batch produces the top-level error result instead of an aggregate. -/
theorem c4_aggregate_counts (env : Env) (names : List String) (h : names ≠ []) :
    validate_data_points env (some names) =
      .results names.length
        ((names.filter (fun n => counts_success (validate_single_file env n))).length)
        ((names.filter (fun n => !counts_success (validate_single_file env n))).length)
        (names.map (fun n => (n, validate_single_file env n)))
        (((names.filter (fun n => counts_success (validate_single_file env n))).length : ℚ) /
          (names.length : ℚ) * 100) ∧
    (names.filter (fun n => counts_success (validate_single_file env n))).length +
      (names.filter (fun n => !counts_success (validate_single_file env n))).length =
      names.length ∧
    (∀ fr : FileResult, counts_success fr = true ↔
      (fr.success = true ∧ ∃ v, fr.validation_result = some v ∧ v.status = "success")) ∧
    (∀ env2 : Env, validate_data_points env2 (some []) =
      .err "No files found for processing") := by
  refine ⟨?_, filter_split_length _ names, ?_, ?_⟩
  · unfold validate_data_points
    rw [if_neg (by simpa using h)]
    try dsimp only
    rw [validate_foldl_counts env names ((0 : Nat), (0 : Nat), ([] : List (String × FileResult)))]
    try dsimp only
    rw [if_pos (by cases names with | nil => exact absurd rfl h | cons a l => simp)]
    simp
  · intro fr
    unfold counts_success
    constructor
    · intro hc
      simp only [Bool.and_eq_true] at hc
      refine ⟨hc.1, ?_⟩
      cases hv : fr.validation_result with
      | none => rw [hv] at hc; simp at hc
      | some v =>
        rw [hv] at hc
        refine ⟨v, rfl, ?_⟩
        have := hc.2
        simpa using this
    · rintro ⟨hs, v, hv, hst⟩
      simp only [Bool.and_eq_true]
      exact ⟨hs, by rw [hv]; simpa using hst⟩
  · intro env2
    rfl

set_option maxRecDepth 10000 in
theorem c4_aggregate_counts_witness :
    validate_data_points sampleEnv (some ["ok", "badpatch", "noreport", "ghost"]) =
      .results 4 1 3
        (["ok", "badpatch", "noreport", "ghost"].map
          (fun n => (n, validate_single_file sampleEnv n)))
        25 := by
  have h := (c4_aggregate_counts sampleEnv ["ok", "badpatch", "noreport", "ghost"]
    (by decide)).1
  rw [h]
  have hS : (["ok", "badpatch", "noreport", "ghost"].filter
      (fun n => counts_success (validate_single_file sampleEnv n))).length = 1 := by decide
  have hF : (["ok", "badpatch", "noreport", "ghost"].filter
      (fun n => !counts_success (validate_single_file sampleEnv n))).length = 3 := by decide
  rw [hS, hF]
  norm_num

/-- C6: each pipeline step's failure short-circuits the remaining steps
for that file and yields a failure result carrying a human-readable
reason — the result being completely determined at the failing step,
independent of the oracles later steps would consult; an exception
thrown inside the body is caught and recorded as that file's failure;
and the batch aggregates the per-file pipeline applied to each name
independently, so no file's outcome aborts or alters a sibling's. -/
theorem c6_short_circuit_and_isolation :
    (∀ (env : Env) (name : String),
      load_data_points_by_files env.dirExists env.dataFiles (some [name]) = [] →
      validate_single_file env name =
        { success := false, error := some ("Failed to load " ++ name ++ ".json"),
          instance_id := none, run_id := none, validation_result := none }) ∧
    (∀ (env : Env) (name : String) (dp : PyVal) (rest : List PyVal) (iid : PyVal),
      load_data_points_by_files env.dirExists env.dataFiles (some [name]) = dp :: rest →
      pyGet dp "instance_id" (vStr "unknown") = .ok iid →
      convert_to_predictions "gpt-4" [dp] = .ok [] →
      validate_single_file env name =
        { success := false, error := some "Failed to convert to prediction",
          instance_id := none, run_id := none, validation_result := none }) ∧
    (∀ (env : Env) (name : String) (dp : PyVal) (rest preds : List PyVal) (iid : PyVal),
      load_data_points_by_files env.dirExists env.dataFiles (some [name]) = dp :: rest →
      pyGet dp "instance_id" (vStr "unknown") = .ok iid →
      convert_to_predictions "gpt-4" [dp] = .ok preds → preds ≠ [] →
      env.saveOk ("predictions_" ++ name ++ ".jsonl") = false →
      validate_single_file env name =
        { success := false, error := some "Failed to save prediction",
          instance_id := none, run_id := none, validation_result := none }) ∧
    (∀ (env : Env) (name : String) (dp : PyVal) (rest preds : List PyVal) (iid : PyVal),
      load_data_points_by_files env.dirExists env.dataFiles (some [name]) = dp :: rest →
      pyGet dp "instance_id" (vStr "unknown") = .ok iid →
      convert_to_predictions "gpt-4" [dp] = .ok preds → preds ≠ [] →
      env.saveOk ("predictions_" ++ name ++ ".jsonl") = true →
      (run_docker_evaluation (env.docker ("predictions_" ++ name ++ ".jsonl") name)).success
        = false →
      validate_single_file env name =
        { success := false,
          error := some ("Docker evaluation failed: " ++
            ((run_docker_evaluation
              (env.docker ("predictions_" ++ name ++ ".jsonl") name)).error.getD "")),
          instance_id := none, run_id := none, validation_result := none }) ∧
    (∀ (env : Env) (name : String) (e : String),
      validate_single_file_body env name = .error e →
      validate_single_file env name =
        { success := false, error := some e, instance_id := none,
          run_id := none, validation_result := none }) ∧
    (∀ (env : Env) (names : List String), names ≠ [] →
      ∃ (S F : Nat) (R : ℚ), validate_data_points env (some names) =
        .results names.length S F
          (names.map (fun n => (n, validate_single_file env n))) R) := by
  refine ⟨?_, ?_, ?_, ?_, ?_, ?_⟩
  · intro env name hload
    unfold validate_single_file validate_single_file_body
    rw [hload]
  · intro env name dp rest iid hload hiid hconv
    unfold validate_single_file validate_single_file_body
    rw [hload]
    try dsimp only
    rw [hiid, except_bind_ok, hconv, except_bind_ok]
    rfl
  · intro env name dp rest preds iid hload hiid hconv hne hsave
    unfold validate_single_file validate_single_file_body
    rw [hload]
    try dsimp only
    rw [hiid, except_bind_ok, hconv, except_bind_ok]
    rw [if_neg (by simpa using hne)]
    rw [if_pos (by simp [hsave])]
  · intro env name dp rest preds iid hload hiid hconv hne hsave hdock
    unfold validate_single_file validate_single_file_body
    rw [hload]
    try dsimp only
    rw [hiid, except_bind_ok, hconv, except_bind_ok]
    rw [if_neg (by simpa using hne)]
    rw [if_neg (by simp [hsave])]
    try dsimp only
    rw [if_pos (by simp [hdock])]
  · intro env name e hbody
    unfold validate_single_file
    rw [hbody]
  · intro env names hne
    refine ⟨(names.filter (fun n => counts_success (validate_single_file env n))).length,
            (names.filter (fun n => !counts_success (validate_single_file env n))).length,
            (((names.filter (fun n => counts_success (validate_single_file env n))).length : ℚ) /
              (names.length : ℚ) * 100), ?_⟩
    unfold validate_data_points
    rw [if_neg (by simpa using hne)]
    try dsimp only
    rw [validate_foldl_counts env names ((0 : Nat), (0 : Nat), ([] : List (String × FileResult)))]
    try dsimp only
    rw [if_pos (by cases names with | nil => exact absurd rfl hne | cons a l => simp)]
    simp

theorem c6_short_circuit_and_isolation_witness :
    validate_single_file sampleEnv "ghost" =
      { success := false, error := some ("Failed to load ghost.json"),
        instance_id := none, run_id := none, validation_result := none } ∧
    ∃ (S F : Nat) (R : ℚ), validate_data_points sampleEnv (some ["ok", "ghost"]) =
      .results 2 S F
        (["ok", "ghost"].map (fun n => (n, validate_single_file sampleEnv n))) R :=
  ⟨c6_short_circuit_and_isolation.1 sampleEnv "ghost" (by decide),
   c6_short_circuit_and_isolation.2.2.2.2.2 sampleEnv ["ok", "ghost"] (by decide)⟩

theorem roundtrip_prediction (a b c : String) :
    jsonParse (jsonDumps (vDict [("instance_id", vStr a), ("model_name_or_path", vStr b),
      ("model_patch", vStr c)])) =
      .ok (vDict [("instance_id", vStr a), ("model_name_or_path", vStr b),
        ("model_patch", vStr c)]) := by
  have := jsonParse_dumpFlat
    [("instance_id", a), ("model_name_or_path", b), ("model_patch", c)]
    (by simp) (by simp)
  simpa using this

/-- C5: converting a list of valid data points (each with a non-empty
string `instance_id` and a non-empty string `patch`) to predictions and
persisting them as JSON lines, then re-reading and parsing the persisted
lines, yields exactly one record per data point, in which `model_patch`
equals the original patch and `instance_id` is preserved. -/
theorem c5_persist_roundtrip (entries : List (PyVal × String × String))
    (h : ∀ e ∈ entries,
      pyGet e.1 "instance_id" vNone = .ok (vStr e.2.1) ∧ e.2.1 ≠ "" ∧
      pyGet e.1 "patch" vNone = .ok (vStr e.2.2) ∧ e.2.2 ≠ "") :
    convert_to_predictions "gpt-4" (entries.map Prod.fst) =
      .ok (entries.map (fun e => vDict [("instance_id", vStr e.2.1),
            ("model_name_or_path", vStr "gpt-4"), ("model_patch", vStr e.2.2)])) ∧
    (entries.map (fun e => vDict [("instance_id", vStr e.2.1),
        ("model_name_or_path", vStr "gpt-4"), ("model_patch", vStr e.2.2)])).length =
      entries.length ∧
    read_predictions_lines (save_predictions_lines
        (entries.map (fun e => vDict [("instance_id", vStr e.2.1),
          ("model_name_or_path", vStr "gpt-4"), ("model_patch", vStr e.2.2)]))) =
      (entries.map (fun e => vDict [("instance_id", vStr e.2.1),
        ("model_name_or_path", vStr "gpt-4"), ("model_patch", vStr e.2.2)])).map Except.ok := by
  refine ⟨?_, by simp, ?_⟩
  · induction entries with
    | nil => rfl
    | cons e rest ih =>
      obtain ⟨h1, h2, h3, h4⟩ := h e (by simp)
      simp only [List.map_cons]
      show (convert_single_data_point "gpt-4" e.1 >>= fun p =>
        convert_to_predictions "gpt-4" (rest.map Prod.fst) >>= fun ps =>
        match p with
        | some pr => .ok (pr :: ps)
        | none => .ok ps) = _
      rw [show convert_single_data_point "gpt-4" e.1 =
          .ok (some (vDict [("instance_id", vStr e.2.1),
            ("model_name_or_path", vStr "gpt-4"), ("model_patch", vStr e.2.2)])) by
        unfold convert_single_data_point
        rw [h1, except_bind_ok, h3, except_bind_ok]
        rw [if_neg (by
          simp only [pyTruthy, Bool.not_not, Bool.or_eq_true, String.isEmpty_iff]
          push_neg
          exact ⟨h2, h4⟩)]]
      rw [except_bind_ok]
      rw [ih (fun x hx => h x (by simp [hx]))]
      rw [except_bind_ok]
  · clear h
    unfold read_predictions_lines save_predictions_lines
    induction entries with
    | nil => rfl
    | cons e rest ih =>
      simp only [List.map_cons, List.cons.injEq]
      exact ⟨roundtrip_prediction e.2.1 "gpt-4" e.2.2, ih⟩

theorem c5_persist_roundtrip_witness :
    convert_to_predictions "gpt-4"
      ([(vDict [("instance_id", vStr "a"), ("patch", vStr "diff --git x\ny \"q\" \\ z")],
          "a", "diff --git x\ny \"q\" \\ z"),
        (vDict [("instance_id", vStr "b"), ("patch", vStr "p2")], "b", "p2")].map Prod.fst) =
      .ok ([(vDict [("instance_id", vStr "a"), ("patch", vStr "diff --git x\ny \"q\" \\ z")],
          "a", "diff --git x\ny \"q\" \\ z"),
        (vDict [("instance_id", vStr "b"), ("patch", vStr "p2")], "b", "p2")].map
          (fun e => vDict [("instance_id", vStr e.2.1),
            ("model_name_or_path", vStr "gpt-4"), ("model_patch", vStr e.2.2)])) ∧
    ([(vDict [("instance_id", vStr "a"), ("patch", vStr "diff --git x\ny \"q\" \\ z")],
          "a", "diff --git x\ny \"q\" \\ z"),
        (vDict [("instance_id", vStr "b"), ("patch", vStr "p2")], "b", "p2")].map
          (fun e => vDict [("instance_id", vStr e.2.1),
            ("model_name_or_path", vStr "gpt-4"), ("model_patch", vStr e.2.2)])).length = 2 ∧
    read_predictions_lines (save_predictions_lines
        ([(vDict [("instance_id", vStr "a"), ("patch", vStr "diff --git x\ny \"q\" \\ z")],
          "a", "diff --git x\ny \"q\" \\ z"),
        (vDict [("instance_id", vStr "b"), ("patch", vStr "p2")], "b", "p2")].map
          (fun e => vDict [("instance_id", vStr e.2.1),
            ("model_name_or_path", vStr "gpt-4"), ("model_patch", vStr e.2.2)]))) =
      ([(vDict [("instance_id", vStr "a"), ("patch", vStr "diff --git x\ny \"q\" \\ z")],
          "a", "diff --git x\ny \"q\" \\ z"),
        (vDict [("instance_id", vStr "b"), ("patch", vStr "p2")], "b", "p2")].map
          (fun e => vDict [("instance_id", vStr e.2.1),
            ("model_name_or_path", vStr "gpt-4"), ("model_patch", vStr e.2.2)])).map
        Except.ok :=
  c5_persist_roundtrip
    [(vDict [("instance_id", vStr "a"), ("patch", vStr "diff --git x\ny \"q\" \\ z")],
        "a", "diff --git x\ny \"q\" \\ z"),
     (vDict [("instance_id", vStr "b"), ("patch", vStr "p2")], "b", "p2")]
    (by decide)
